import Mathlib

/-!
Verification development for the SPIR-V front-end decoder
(src/front/spirv.rs of the naga repository).

The decoder is shallowly embedded: the Rust parser is a struct of lookup
tables plus a forward-only u32 iterator; we model it as a state record
threaded through a result monad.  Machine integers are modelled as Nat
(u32 words are < 2 ^ 32 by construction of the input; casts such as
"as u16" are written as explicit "% 65536").  Rust panics (unwrap on
None, out-of-range storage indexing) are modelled by a distinguished
result constructor.  Enum types that the source obtains by transmuting a
validated raw word (spirv::Capability, spirv::StorageClass,
spirv::BuiltIn, spirv::Decoration, spirv::ExecutionModel, spirv::Dim)
are kept as the raw numeric word; the numeric ceilings below are the
discriminants of the named constants of the external spirv crate, which
follow the SPIR-V standard.
-/

set_option autoImplicit false

namespace NagaSpirv

/-- A SPIR-V stream word (u32 in the source). -/
abbrev Word := Nat

-- Constants from src/front/spirv.rs lines 20-35; the numeric values are the
-- SPIR-V standard discriminants of the named spirv-crate constants.
def LAST_KNOWN_OPCODE : Nat := 5633            -- Op::MemberDecorateStringGOOGLE
def LAST_KNOWN_CAPABILITY : Nat := 5346        -- Capability::VulkanMemoryModelDeviceScopeKHR
def LAST_KNOWN_EXECUTION_MODEL : Nat := 6      -- ExecutionModel::Kernel
def LAST_KNOWN_STORAGE_CLASS : Nat := 12       -- StorageClass::StorageBuffer
def LAST_KNOWN_DECORATION : Nat := 5300        -- Decoration::NonUniformEXT
def LAST_KNOWN_BUILT_IN : Nat := 5264          -- BuiltIn::FullyCoveredEXT
def LAST_KNOWN_DIM : Nat := 6                  -- Dim::DimSubpassData

def SUPPORTED_CAPABILITIES : List Nat := [1]   -- [Capability::Shader]
def SUPPORTED_EXTENSIONS : List String := []
def SUPPORTED_EXT_SETS : List String := ["GLSL.std.450"]

def MAGIC_NUMBER : Nat := 0x07230203           -- spirv::MAGIC_NUMBER

-- Storage-class words used by the parser's matches.
def SC_Input : Nat := 1                        -- StorageClass::Input
def SC_Output : Nat := 3                       -- StorageClass::Output

/-- ModuleState (src lines 96-111).  The Rust enum derives PartialOrd, which
compares discriminants; we expose the discriminant as toNat. -/
inductive ModuleState where
  | empty | capability | extension | extInstImport | memoryModel
  | entryPoint | executionMode | source | name | moduleProcessed
  | annot | type | function
deriving DecidableEq, Repr

def ModuleState.toNat : ModuleState → Nat
  | .empty => 0 | .capability => 1 | .extension => 2 | .extInstImport => 3
  | .memoryModel => 4 | .entryPoint => 5 | .executionMode => 6 | .source => 7
  | .name => 8 | .moduleProcessed => 9 | .annot => 10 | .type => 11
  | .function => 12

/-- The subset of spirv::Op the parser matches on; every other opcode value
in the known range is kept raw (the parser sends it to a default arm). -/
inductive Op where
  | capability | extension | extInstImport | memoryModel | entryPoint
  | executionMode | source | sourceExtension | name | memberName
  | decorate | memberDecorate
  | typeVoid | typeInt | typeFloat | typeVector | typeMatrix | typeImage
  | typeSampler | typeSampledImage | typeArray | typeRuntimeArray
  | typeStruct | typePointer | typeFunction
  | constant | specConstant | variable | function | functionParameter
  | functionEnd | label | accessChain | compositeConstruct
  | compositeExtract | load | store | ret | sampledImage
  | imageSampleImplicitLod | vectorTimesScalar | matrixTimesVector
  | other (code : Nat)
deriving DecidableEq, Repr

/-- Decode an opcode word (standard SPIR-V opcode numbers). -/
def decodeOp (n : Nat) : Op :=
  match n with
  | 3 => .source | 4 => .sourceExtension | 5 => .name | 6 => .memberName
  | 10 => .extension | 11 => .extInstImport | 14 => .memoryModel
  | 15 => .entryPoint | 16 => .executionMode | 17 => .capability
  | 19 => .typeVoid | 21 => .typeInt | 22 => .typeFloat | 23 => .typeVector
  | 24 => .typeMatrix | 25 => .typeImage | 26 => .typeSampler
  | 27 => .typeSampledImage | 28 => .typeArray | 29 => .typeRuntimeArray
  | 30 => .typeStruct | 32 => .typePointer | 33 => .typeFunction
  | 43 => .constant | 50 => .specConstant | 54 => .function
  | 55 => .functionParameter | 56 => .functionEnd | 59 => .variable
  | 61 => .load | 62 => .store | 65 => .accessChain
  | 71 => .decorate | 72 => .memberDecorate
  | 80 => .compositeConstruct | 81 => .compositeExtract
  | 86 => .sampledImage | 87 => .imageSampleImplicitLod
  | 142 => .vectorTimesScalar | 145 => .matrixTimesVector
  | 248 => .label | 253 => .ret
  | c => .other c

/-- Error (src lines 37-71).  Enum payloads transmuted from words are kept
as the raw Nat; IR tokens are Nat indices. -/
inductive Error where
  | invalidHeader
  | invalidWordCount
  | unknownInstruction (op : Nat)
  | unknownCapability (w : Nat)
  | unsupportedInstruction (state : ModuleState) (op : Op)
  | unsupportedCapability (cap : Nat)
  | unsupportedExtension (nm : String)
  | unsupportedExtSet (nm : String)
  | unsupportedType (t : Nat)
  | unsupportedExecutionModel (w : Nat)
  | unsupportedStorageClass (w : Nat)
  | unsupportedFunctionControl (w : Nat)
  | unsupportedDim (w : Nat)
  | invalidParameter (op : Op)
  | invalidOperandCount (op : Op) (wc : Nat)
  | invalidOperand
  | invalidDecoration (w : Nat)
  | invalidId (w : Nat)
  | invalidTypeWidth (w : Nat)
  | invalidSign (w : Nat)
  | invalidInnerType (w : Nat)
  | invalidVectorSize (w : Nat)
  | invalidVariableClass (c : Nat)
  | invalidAccessType (w : Nat)
  | invalidAccessIndex (t : Nat)
  | invalidLoadType (w : Nat)
  | invalidStoreType (w : Nat)
  | invalidBinding (w : Nat)
  | wrongFunctionResultType (w : Nat)
  | wrongFunctionParameterType (w : Nat)
  | badString
  | incompleteData
deriving DecidableEq, Repr

structure Instruction where
  op : Op
  wc : Nat
deriving DecidableEq, Repr

/-- Result of a decoder step: success, a recoverable Error, or a Rust
panic (unwrap on None / out-of-range storage indexing). -/
inductive Res (α : Type) where
  | ok : α → Res α
  | err : Error → Res α
  | panic : Res α
deriving Repr

instance {α : Type} [DecidableEq α] : DecidableEq (Res α) := fun a b =>
  match a, b with
  | .ok x, .ok y =>
      if h : x = y then isTrue (by rw [h]) else
        isFalse (fun hc => by cases hc; exact h rfl)
  | .err e, .err e2 =>
      if h : e = e2 then isTrue (by rw [h]) else
        isFalse (fun hc => by cases hc; exact h rfl)
  | .panic, .panic => isTrue rfl
  | .ok _, .err _ => isFalse (fun hc => by cases hc)
  | .ok _, .panic => isFalse (fun hc => by cases hc)
  | .err _, .ok _ => isFalse (fun hc => by cases hc)
  | .err _, .panic => isFalse (fun hc => by cases hc)
  | .panic, .ok _ => isFalse (fun hc => by cases hc)
  | .panic, .err _ => isFalse (fun hc => by cases hc)

def Res.isOk {α : Type} : Res α → Bool
  | .ok _ => true
  | _ => false

def Res.bind {α β : Type} : Res α → (α → Res β) → Res β
  | .ok a, f => f a
  | .err e, _ => .err e
  | .panic, _ => .panic

instance : Monad Res where
  pure := Res.ok
  bind := Res.bind

@[simp] theorem Res.bind_ok {α β : Type} (a : α) (f : α → Res β) :
    Res.bind (.ok a) f = f a := rfl
@[simp] theorem Res.bind_err {α β : Type} (e : Error) (f : α → Res β) :
    Res.bind (.err e) f = .err e := rfl
@[simp] theorem Res.bind_panic {α β : Type} (f : α → Res β) :
    Res.bind .panic f = .panic := rfl
@[simp] theorem Res.pure_eq {α : Type} (a : α) : (pure a : Res α) = .ok a := rfl
@[simp] theorem Res.bind_eq {α β : Type} (x : Res α) (f : α → Res β) :
    x >>= f = Res.bind x f := rfl

/-! ## IR data model (the crate-root types the decoder constructs)

The IR type definitions live in the crate root, which is not under src/;
their shape is fixed by how src/front/spirv.rs constructs and matches
them, and by spec section 3.  Tokens (storage handles) are Nat indices
into append-only lists. -/

/-- crate::Binding. -/
inductive Binding where
  | builtIn (b : Nat)
  | location (l : Word)
  | descriptor (set : Word) (binding : Word)
deriving DecidableEq, Repr

/-- Pending decoration record (src lines 145-152). -/
structure Decoration where
  name : Option String := none
  builtIn : Option Nat := none
  location : Option Word := none
  descSet : Option Word := none
  descIndex : Option Word := none
deriving DecidableEq, Repr

instance : Inhabited Decoration := ⟨{}⟩

/-- Decoration::get_binding (src lines 154-182): exactly one of the three
mutually exclusive field groups must be present. -/
def Decoration.getBinding (d : Decoration) : Option Binding :=
  match d.builtIn, d.location, d.descSet, d.descIndex with
  | some b, none, none, none => some (.builtIn b)
  | none, some l, none, none => some (.location l)
  | none, none, some s, some i => some (.descriptor s i)
  | _, _, _, _ => none

inductive ScalarKind where
  | uint | sint | float
deriving DecidableEq, Repr

inductive VectorSize where
  | bi | tri | quad
deriving DecidableEq, Repr

inductive ArraySize where
  | static (n : Word)
  | dynamic
deriving DecidableEq, Repr

structure StructMember where
  name : Option String
  binding : Option Binding
  ty : Nat
deriving DecidableEq, Repr

/-- crate::TypeInner.  The storage class of a pointer is the raw
StorageClass word (validated to be ≤ LAST_KNOWN_STORAGE_CLASS before
the source transmutes it); image flags are kept as a bit set in a Nat
(the bit assignment of crate::ImageFlags is not in src/ and no claim
depends on it). -/
inductive TypeInner where
  | scalar (kind : ScalarKind) (width : Nat)
  | vector (size : VectorSize) (kind : ScalarKind) (width : Nat)
  | matrix (columns : VectorSize) (rows : VectorSize) (kind : ScalarKind) (width : Nat)
  | pointer (base : Nat) (cls : Nat)
  | array (base : Nat) (size : ArraySize)
  | struct (members : List StructMember)
  | image (base : Nat) (dim : Nat) (flags : Nat)
  | sampler
deriving DecidableEq, Repr

structure Ty where
  name : Option String
  inner : TypeInner
deriving DecidableEq, Repr

/-- The source stores an f64 ("f32 widened to f64" for 32-bit constants,
a bit-reinterpreted f64 for 64-bit ones).  IEEE semantics are not
modelled; we keep the decoded bit pattern with its provenance. -/
inductive FloatValue where
  | ofF32Bits (bits : Nat)
  | ofF64Bits (bits : Nat)
deriving DecidableEq, Repr

/-- crate::ConstantInner: Uint(u64) as a Nat < 2^64, Sint(i64) as an Int. -/
inductive ConstantInner where
  | uint (v : Nat)
  | sint (v : Int)
  | float (v : FloatValue)
deriving DecidableEq, Repr

structure Constant where
  name : Option String
  specialization : Option Nat
  inner : ConstantInner
deriving DecidableEq, Repr

/-- crate::GlobalVariable; cls is the field called class in the source. -/
structure GlobalVariable where
  name : Option String
  cls : Nat
  binding : Option Binding
  ty : Nat
deriving DecidableEq, Repr

inductive Expression where
  | globalVariable (v : Nat)
  | constant (c : Nat)
  | access (base : Nat) (index : Nat)
  | accessIndex (base : Nat) (index : Word)
  | load (pointer : Nat)
  | compose (ty : Nat) (components : List Nat)
  | mul (a : Nat) (b : Nat)
  | imageSample (image : Nat) (sampler : Nat) (coordinate : Nat)
deriving DecidableEq, Repr

inductive Statement where
  | store (pointer : Nat) (value : Nat)
  | ret (value : Option Nat)
deriving DecidableEq, Repr

structure Function where
  name : Option String
  control : Nat
  parameterTypes : List Nat
  returnType : Option Nat
  expressions : List Expression
  body : List Statement
deriving DecidableEq, Repr

structure EntryPoint where
  execModel : Nat
  name : String
  function : Nat
  inputs : List Nat
  outputs : List Nat
deriving DecidableEq, Repr

structure Header where
  version : Nat × Nat × Nat
  generator : Word
deriving DecidableEq, Repr

structure Module where
  header : Header
  types : List Ty
  constants : List Constant
  globalVariables : List GlobalVariable
  functions : List Function
  entryPoints : List EntryPoint
deriving DecidableEq, Repr

/-- Modelled from the spec: crate::Module::from_header (crate root, not in
src/) makes a module carrying the header with empty storages
(spec sections 6.1 and 6.3). -/
def Module.fromHeader (h : Header) : Module :=
  { header := h, types := [], constants := [], globalVariables := []
    functions := [], entryPoints := [] }

/-! ## Storage and lookup-table helpers

Storage (crate::storage) is append-only: append returns the new list and
the token (index) of the appended element; indexing with an invalid
token panics in Rust.  FastHashMap is modelled as an association list
with first-match lookup; insert removes any previous entry and appends,
which fixes a deterministic iteration order (HashMap order is
unspecified; nothing the parser does observes it except the seeding
order of function expressions, which no claim depends on). -/

def appendT {α : Type} (l : List α) (v : α) : List α × Nat :=
  (l ++ [v], l.length)

/-- Storage indexing; panics (Rust index out of bounds) on a bad token. -/
def storIdx {α : Type} (l : List α) (t : Nat) : Res α :=
  match l.get? t with
  | some v => .ok v
  | none => .panic

def mfind {κ α : Type} [DecidableEq κ] : List (κ × α) → κ → Option α
  | [], _ => none
  | (k2, v) :: rest, k => if k2 = k then some v else mfind rest k

def mremove {κ α : Type} [DecidableEq κ] : List (κ × α) → κ → List (κ × α)
  | [], _ => []
  | (k2, v) :: rest, k =>
      if k2 = k then mremove rest k else (k2, v) :: mremove rest k

def minsert {κ α : Type} [DecidableEq κ] (m : List (κ × α)) (k : κ) (v : α) :
    List (κ × α) :=
  mremove m k ++ [(k, v)]

/-- LookupHelper::lookup (src lines 113-124). -/
def mlookup {α : Type} (m : List (Word × α)) (k : Word) :
    Res α :=
  match mfind m k with
  | some v => .ok v
  | none => .err (.invalidId k)

/-- Set insertion for FastHashSet. -/
def sinsert (l : List Word) (k : Word) : List Word :=
  if l.contains k then l else l ++ [k]

/-! ## Parser state and monad -/

structure LookupType where
  token : Nat
  baseId : Option Word
deriving DecidableEq, Repr

structure LookupConstant where
  token : Nat
  typeId : Word
deriving DecidableEq, Repr

structure LookupVariable where
  token : Nat
  typeId : Word
deriving DecidableEq, Repr

structure LookupExpression where
  token : Nat
  typeId : Word
deriving DecidableEq, Repr

structure LookupSampledImage where
  image : Nat
  sampler : Nat
deriving DecidableEq, Repr

structure LookupFunctionType where
  parameterTypeIds : List Word
  returnTypeId : Word
deriving DecidableEq, Repr

/-- A buffered EntryPoint instruction (src lines 190-196). -/
structure RawEntryPoint where
  execModel : Nat
  name : String
  functionId : Word
  variableIds : List Word
deriving DecidableEq, Repr

/-- The Parser struct (src lines 228-243), together with the module under
construction and the entry-point buffer, which in the source are locals
of Parser::parse.  The temp_bytes scratch buffer is omitted (next_string
clears it on entry; we accumulate bytes locally). -/
structure St where
  data : List Word
  state : ModuleState
  futureDecor : List (Word × Decoration)
  futureMemberDecor : List ((Word × Word) × Decoration)
  lookupMemberTypeId : List ((Word × Word) × Word)
  lookupType : List (Word × LookupType)
  lookupVoidType : List Word
  lookupConstant : List (Word × LookupConstant)
  lookupVariable : List (Word × LookupVariable)
  lookupExpression : List (Word × LookupExpression)
  lookupSampledImage : List (Word × LookupSampledImage)
  lookupFunctionType : List (Word × LookupFunctionType)
  lookupFunction : List (Word × Nat)
  module : Module
  entryPoints : List RawEntryPoint
deriving DecidableEq, Repr

/-- Parser::new with the given word stream. -/
def initSt (data : List Word) : St :=
  { data, state := .empty, futureDecor := [], futureMemberDecor := []
    lookupMemberTypeId := [], lookupType := [], lookupVoidType := []
    lookupConstant := [], lookupVariable := [], lookupExpression := []
    lookupSampledImage := [], lookupFunctionType := [], lookupFunction := []
    module := Module.fromHeader { version := (0, 0, 0), generator := 0 }
    entryPoints := [] }

/-- The decoder monad: state passing over St with Res results. -/
def M (α : Type) : Type := St → Res (α × St)

instance : Monad M where
  pure a := fun s => .ok (a, s)
  bind x f := fun s =>
    match x s with
    | .ok (a, s2) => f a s2
    | .err e => .err e
    | .panic => .panic

def errM {α : Type} (e : Error) : M α := fun _ => .err e
def panicM {α : Type} : M α := fun _ => .panic
def getM : M St := fun s => .ok (s, s)
def setM (s2 : St) : M Unit := fun _ => .ok ((), s2)
def modifyM (f : St → St) : M Unit := fun s => .ok ((), f s)
def liftR {α : Type} (r : Res α) : M α := fun s =>
  match r with
  | .ok a => .ok (a, s)
  | .err e => .err e
  | .panic => .panic
/-- Option::unwrap — panics on None. -/
def unwrapM {α : Type} : Option α → M α
  | some a => pure a
  | none => panicM

@[simp] theorem bind_apply {α β : Type} (x : M α) (f : α → M β) (s : St) :
    (x >>= f) s =
      match x s with
      | .ok (a, s2) => f a s2
      | .err e => .err e
      | .panic => .panic := rfl

@[simp] theorem pure_apply {α : Type} (a : α) (s : St) :
    (pure a : M α) s = .ok (a, s) := rfl

@[simp] theorem errM_apply {α : Type} (e : Error) (s : St) :
    (errM e : M α) s = .err e := rfl

@[simp] theorem panicM_apply {α : Type} (s : St) :
    (panicM : M α) s = .panic := rfl

@[simp] theorem getM_apply (s : St) : getM s = .ok (s, s) := rfl

@[simp] theorem setM_apply (s2 s : St) : setM s2 s = .ok ((), s2) := rfl

@[simp] theorem modifyM_apply (f : St → St) (s : St) :
    modifyM f s = .ok ((), f s) := rfl

@[simp] theorem liftR_apply {α : Type} (r : Res α) (s : St) :
    liftR r s =
      match r with
      | .ok a => .ok (a, s)
      | .err e => .err e
      | .panic => .panic := rfl

@[simp] theorem unwrapM_some {α : Type} (a : α) : unwrapM (some a) = pure a := rfl
@[simp] theorem unwrapM_none {α : Type} : (unwrapM none : M α) = panicM := rfl

/-! ## Integer reinterpretation helpers -/

/-- Reinterpret a u64 bit pattern as an i64 (two's complement). -/
def i64OfU64 (u : Nat) : Int :=
  if u < 2 ^ 63 then (u : Int) else (u : Int) - 2 ^ 64

/-- Rust cast i64 -> u32 (low 32 bits of the two's-complement pattern). -/
def u32OfI64 (v : Int) : Nat :=
  (v % (2 ^ 32 : Int)).toNat

/-- u64 value of (high as u64) << 32 | low as u64 for u32 high and low. -/
def word64 (high low : Word) : Nat :=
  high * 4294967296 + low

/-! ## Stream reader (src lines 265-304) -/

/-- Parser::next — pull one word, IncompleteData when exhausted. -/
def next : M Word := fun s =>
  match s.data with
  | [] => .err .incompleteData
  | w :: rest => .ok (w, { s with data := rest })

@[simp] theorem next_nil (s : St) (h : s.data = []) :
    next s = .err .incompleteData := by
  unfold next; rw [h]

@[simp] theorem next_cons (s : St) (w : Word) (rest : List Word)
    (h : s.data = w :: rest) :
    next s = .ok (w, { s with data := rest }) := by
  unfold next; rw [h]

/-- Parser::next_inst (src lines 269-285).  (word >> 16) as u16 and
(word & 0xffff) as u16; the % 65536 mirrors the u16 casts (a no-op for
u32 input words). -/
def nextInst : M Instruction := do
  let word ← next
  let wc := word / 65536 % 65536
  let opcode := word % 65536
  if wc = 0 then errM .invalidWordCount
  else if LAST_KNOWN_OPCODE < opcode then errM (.unknownInstruction opcode)
  else pure { op := decodeOp opcode, wc }

/-- Little-endian bytes of a u32 word (u32::to_le_bytes). -/
def wordLEBytes (w : Word) : List Nat :=
  [w % 256, w / 256 % 256, w / 65536 % 256, w / 16777216 % 256]

/-- The loop of Parser::next_string: gather bytes, stop inside the word
that contains a NUL; running out of declared words is BadString. -/
def nextStringLoop : Nat → List Nat → M (List Nat × Nat)
  | 0, _ => errM .badString
  | count + 1, acc => do
      let w ← next
      let chars := wordLEBytes w
      let pos := (chars.findIdx? (· == 0)).getD 4
      let acc2 := acc ++ chars.take pos
      if pos < 4 then pure (acc2, count)
      else nextStringLoop count acc2

/-- Parser::next_string (src lines 287-304); non-UTF8 is BadString. -/
def nextString (count : Nat) : M (String × Nat) := do
  let (bytes, left) ← nextStringLoop count []
  match String.fromUTF8? (ByteArray.mk (Array.mk (bytes.map UInt8.ofNat))) with
  | some str => pure (str, left)
  | none => errM .badString

/-- Consume and discard n words (the for-loops that drain operands). -/
def drainN : Nat → M Unit
  | 0 => pure ()
  | n + 1 => do
      let _ ← next
      drainN n

/-- self.data.by_ref().take(n).collect() — takes at most n words. -/
def takeWords (n : Nat) : M (List Word) := fun s =>
  .ok (s.data.take n, { s with data := s.data.drop n })

/-- Instruction::expect (src lines 79-85). -/
def Instruction.expect (i : Instruction) (count : Nat) : M Unit :=
  if i.wc = count then pure () else errM (.invalidOperandCount i.op i.wc)

/-- Instruction::expect_at_least (src lines 87-93). -/
def Instruction.expectAtLeast (i : Instruction) (count : Nat) : M Unit :=
  if count ≤ i.wc then pure () else errM (.invalidOperandCount i.op i.wc)

/-- Parser::switch (src lines 681-688): target phase below the current
phase is an error, otherwise the phase advances to the target. -/
def switchM (target : ModuleState) (op : Op) : M Unit := fun s =>
  if target.toNat < s.state.toNat then
    .err (.unsupportedInstruction s.state op)
  else
    .ok ((), { s with state := target })

/-- map_vector_size (src lines 126-133). -/
def mapVectorSize (w : Word) : Res VectorSize :=
  match w with
  | 2 => .ok .bi
  | 3 => .ok .tri
  | 4 => .ok .quad
  | _ => .err (.invalidVectorSize w)

/-- map_storage_class (src lines 135-141); the validated word is kept raw
in place of the transmuted enum. -/
def mapStorageClass (w : Word) : Res Nat :=
  if LAST_KNOWN_STORAGE_CLASS < w then .err (.unsupportedStorageClass w)
  else .ok w

/-! ## Decorations (src lines 306-352)

SPIR-V decoration codes: BuiltIn = 11, Location = 30, Binding = 33,
DescriptorSet = 34. -/

def DEC_BuiltIn : Nat := 11
def DEC_Location : Nat := 30
def DEC_Binding : Nat := 33
def DEC_DescriptorSet : Nat := 34

/-- Parser::next_decoration.  A known-range but unhandled decoration code
drains its operands; an out-of-range BuiltIn word is only warned about
(the built_in field stays unchanged). -/
def nextDecoration (inst : Instruction) (baseWords : Nat) (dec : Decoration) :
    M Decoration := do
  let raw ← next
  if LAST_KNOWN_DECORATION < raw then errM (.invalidDecoration raw)
  else if raw = DEC_BuiltIn then do
    inst.expect (baseWords + 2)
    let raw2 ← next
    if LAST_KNOWN_BUILT_IN < raw2 then
      pure dec
    else
      pure { dec with builtIn := some raw2 }
  else if raw = DEC_Location then do
    inst.expect (baseWords + 2)
    let l ← next
    pure { dec with location := some l }
  else if raw = DEC_DescriptorSet then do
    inst.expect (baseWords + 2)
    let v ← next
    pure { dec with descSet := some v }
  else if raw = DEC_Binding then do
    inst.expect (baseWords + 2)
    let v ← next
    pure { dec with descIndex := some v }
  else do
    drainN (inst.wc - (baseWords + 1))
    pure dec

/-! ## Lookup helpers lifted into the monad -/

def lookupExprM (k : Word) : M LookupExpression := do
  let s ← getM
  liftR (mlookup s.lookupExpression k)

def lookupTypeM (k : Word) : M LookupType := do
  let s ← getM
  liftR (mlookup s.lookupType k)

def lookupFunctionTypeM (k : Word) : M LookupFunctionType := do
  let s ← getM
  liftR (mlookup s.lookupFunctionType k)

def lookupSampledImageM (k : Word) : M LookupSampledImage := do
  let s ← getM
  liftR (mlookup s.lookupSampledImage k)

def insertExprM (k : Word) (v : LookupExpression) : M Unit :=
  modifyM fun s => { s with lookupExpression := minsert s.lookupExpression k v }

/-! ## Function-body decoder: Parser::next_block (src lines 354-658) -/

structure AccessExpression where
  baseToken : Nat
  typeId : Word
deriving DecidableEq, Repr

/-- The index walk of the Op::AccessChain handler (for _ in 4 .. inst.wc),
src lines 383-431. -/
def accessChainLoop (typeStore : List Ty) (constStore : List Constant) :
    Nat → AccessExpression → Function → M (AccessExpression × Function)
  | 0, acex, f => pure (acex, f)
  | n + 1, acex, f => do
      let accessId ← next
      let indexExpr ← lookupExprM accessId
      let indexTypeLookup ← lookupTypeM indexExpr.typeId
      let indexTy ← liftR (storIdx typeStore indexTypeLookup.token)
      match indexTy.inner with
      | .scalar .uint _ => pure ()
      | .scalar .sint _ => pure ()
      | _ => errM (.unsupportedType indexTypeLookup.token)
      let typeLookup ← lookupTypeM acex.typeId
      let curTy ← liftR (storIdx typeStore typeLookup.token)
      match curTy.inner with
      | .struct _ => do
          let idxExprVal ← liftR (storIdx f.expressions indexExpr.token)
          let index ←
            match idxExprVal with
            | .constant constToken => do
                let c ← liftR (storIdx constStore constToken)
                match c.inner with
                | .uint v => pure (v % 4294967296)
                | .sint v => pure (u32OfI64 v)
                | _ => errM (.invalidAccessIndex indexExpr.token)
            | _ => errM (.invalidAccessIndex indexExpr.token)
          let (exprs, tok) := appendT f.expressions (.accessIndex acex.baseToken index)
          let s ← getM
          let memberTypeId ←
            match mfind s.lookupMemberTypeId (acex.typeId, index) with
            | some t => pure t
            | none => errM (.invalidAccessType acex.typeId)
          accessChainLoop typeStore constStore n
            { baseToken := tok, typeId := memberTypeId }
            { f with expressions := exprs }
      | .array _ _ | .vector _ _ _ | .matrix _ _ _ _ => do
          let (exprs, tok) := appendT f.expressions (.access acex.baseToken indexExpr.token)
          let typeId ←
            match typeLookup.baseId with
            | some t => pure t
            | none => errM (.invalidAccessType acex.typeId)
          accessChainLoop typeStore constStore n
            { baseToken := tok, typeId } { f with expressions := exprs }
      | _ => errM (.unsupportedType typeLookup.token)

/-- Op::AccessChain handler (src lines 365-437).  Note the unwrap on the
base type's base_id: a base type without one makes the decoder panic. -/
def handleAccessChain (inst : Instruction) (typeStore : List Ty)
    (constStore : List Constant) (f : Function) : M Function := do
  inst.expectAtLeast 4
  let resultTypeId ← next
  let resultId ← next
  let baseId ← next
  let expr ← lookupExprM baseId
  let ptrType ← lookupTypeM expr.typeId
  let baseTypeId ← unwrapM ptrType.baseId
  let acex : AccessExpression := { baseToken := expr.token, typeId := baseTypeId }
  let (acex2, f2) ← accessChainLoop typeStore constStore (inst.wc - 4) acex f
  insertExprM resultId { token := acex2.baseToken, typeId := resultTypeId }
  pure f2

/-- The index walk of Op::CompositeExtract (src lines 451-476). -/
def compositeExtractLoop (typeStore : List Ty) :
    Nat → LookupExpression → Function → M (LookupExpression × Function)
  | 0, lexp, f => pure (lexp, f)
  | n + 1, lexp, f => do
      let index ← next
      let typeLookup ← lookupTypeM lexp.typeId
      let ty ← liftR (storIdx typeStore typeLookup.token)
      let typeId ←
        match ty.inner with
        | .struct _ => do
            let s ← getM
            match mfind s.lookupMemberTypeId (lexp.typeId, index) with
            | some t => pure t
            | none => errM (.invalidAccessType lexp.typeId)
        | .array _ _ | .vector _ _ _ | .matrix _ _ _ _ =>
            match typeLookup.baseId with
            | some t => pure t
            | none => errM (.invalidAccessType lexp.typeId)
        | _ => errM (.unsupportedType typeLookup.token)
      let (exprs, tok) := appendT f.expressions (.accessIndex lexp.token index)
      compositeExtractLoop typeStore n { token := tok, typeId }
        { f with expressions := exprs }

/-- Op::CompositeExtract handler (src lines 438-482). -/
def handleCompositeExtract (inst : Instruction) (typeStore : List Ty)
    (f : Function) : M Function := do
  inst.expectAtLeast 4
  let resultTypeId ← next
  let resultId ← next
  let baseId ← next
  let expr ← lookupExprM baseId
  let lexp : LookupExpression := { token := expr.token, typeId := expr.typeId }
  let (lexp2, f2) ← compositeExtractLoop typeStore (inst.wc - 4) lexp f
  insertExprM resultId { token := lexp2.token, typeId := resultTypeId }
  pure f2

/-- Component collection of Op::CompositeConstruct (src lines 488-493). -/
def readComponents : Nat → List Nat → M (List Nat)
  | 0, acc => pure acc
  | n + 1, acc => do
      let compId ← next
      let lexp ← lookupExprM compId
      readComponents n (acc ++ [lexp.token])

/-- Op::CompositeConstruct handler (src lines 483-502). -/
def handleCompositeConstruct (inst : Instruction) (f : Function) :
    M Function := do
  inst.expectAtLeast 3
  let resultTypeId ← next
  let id ← next
  let components ← readComponents (inst.wc - 3) []
  let tyLookup ← lookupTypeM resultTypeId
  let (exprs, tok) := appendT f.expressions (.compose tyLookup.token components)
  insertExprM id { token := tok, typeId := resultTypeId }
  pure { f with expressions := exprs }

/-- Op::Load handler (src lines 503-528): the base_id / result-type check
comes first, then the Pointer-shape check. -/
def handleLoad (inst : Instruction) (typeStore : List Ty) (f : Function) :
    M Function := do
  inst.expectAtLeast 4
  let resultTypeId ← next
  let resultId ← next
  let pointerId ← next
  if inst.wc ≠ 4 then do
    inst.expect 5
    let _memoryAccess ← next
    pure ()
  else pure ()
  let baseExpr ← lookupExprM pointerId
  let baseType ← lookupTypeM baseExpr.typeId
  if baseType.baseId ≠ some resultTypeId then
    errM (.invalidLoadType resultTypeId)
  else pure ()
  let bty ← liftR (storIdx typeStore baseType.token)
  match bty.inner with
  | .pointer _ _ => pure ()
  | _ => errM (.unsupportedType baseType.token)
  let (exprs, tok) := appendT f.expressions (.load baseExpr.token)
  insertExprM resultId { token := tok, typeId := resultTypeId }
  pure { f with expressions := exprs }

/-- Op::Store handler (src lines 529-551): here the Pointer-shape check
comes first, then the base_id / value-type check. -/
def handleStore (inst : Instruction) (typeStore : List Ty) (f : Function) :
    M Function := do
  inst.expectAtLeast 3
  let pointerId ← next
  let valueId ← next
  if inst.wc ≠ 3 then do
    inst.expect 4
    let _memoryAccess ← next
    pure ()
  else pure ()
  let baseExpr ← lookupExprM pointerId
  let baseType ← lookupTypeM baseExpr.typeId
  let bty ← liftR (storIdx typeStore baseType.token)
  match bty.inner with
  | .pointer _ _ => pure ()
  | _ => errM (.unsupportedType baseType.token)
  let valueExpr ← lookupExprM valueId
  if baseType.baseId ≠ some valueExpr.typeId then
    errM (.invalidStoreType valueExpr.typeId)
  else pure ()
  pure { f with body := f.body ++ [.store baseExpr.token valueExpr.token] }

/-- Op::VectorTimesScalar handler (src lines 557-585). -/
def handleVectorTimesScalar (inst : Instruction) (typeStore : List Ty)
    (f : Function) : M Function := do
  inst.expect 5
  let resultTypeId ← next
  let resultTypeLookup ← lookupTypeM resultTypeId
  let rty ← liftR (storIdx typeStore resultTypeLookup.token)
  let (resSize, resWidth) ←
    match rty.inner with
    | .vector size .float width => pure (size, width)
    | _ => errM (.unsupportedType resultTypeLookup.token)
  let resultId ← next
  let vectorId ← next
  let scalarId ← next
  let vectorLexp ← lookupExprM vectorId
  let vectorTypeLookup ← lookupTypeM vectorLexp.typeId
  let vty ← liftR (storIdx typeStore vectorTypeLookup.token)
  match vty.inner with
  | .vector size .float width =>
      if size = resSize ∧ width = resWidth then pure ()
      else errM (.unsupportedType vectorTypeLookup.token)
  | _ => errM (.unsupportedType vectorTypeLookup.token)
  let scalarLexp ← lookupExprM scalarId
  let scalarTypeLookup ← lookupTypeM scalarLexp.typeId
  let sty ← liftR (storIdx typeStore scalarTypeLookup.token)
  match sty.inner with
  | .scalar .float width =>
      if width = resWidth then pure ()
      else errM (.unsupportedType scalarTypeLookup.token)
  | _ => errM (.unsupportedType scalarTypeLookup.token)
  let (exprs, tok) := appendT f.expressions (.mul vectorLexp.token scalarLexp.token)
  insertExprM resultId { token := tok, typeId := resultTypeId }
  pure { f with expressions := exprs }

/-- Op::MatrixTimesVector handler (src lines 586-614). -/
def handleMatrixTimesVector (inst : Instruction) (typeStore : List Ty)
    (f : Function) : M Function := do
  inst.expect 5
  let resultTypeId ← next
  let resultTypeLookup ← lookupTypeM resultTypeId
  let rty ← liftR (storIdx typeStore resultTypeLookup.token)
  let (resSize, resWidth) ←
    match rty.inner with
    | .vector size .float width => pure (size, width)
    | _ => errM (.unsupportedType resultTypeLookup.token)
  let resultId ← next
  let matrixId ← next
  let vectorId ← next
  let matrixLexp ← lookupExprM matrixId
  let matrixTypeLookup ← lookupTypeM matrixLexp.typeId
  let mty ← liftR (storIdx typeStore matrixTypeLookup.token)
  let columns ←
    match mty.inner with
    | .matrix columns rows .float width =>
        if rows = resSize ∧ width = resWidth then pure columns
        else errM (.unsupportedType matrixTypeLookup.token)
    | _ => errM (.unsupportedType matrixTypeLookup.token)
  let vectorLexp ← lookupExprM vectorId
  let vectorTypeLookup ← lookupTypeM vectorLexp.typeId
  let vty ← liftR (storIdx typeStore vectorTypeLookup.token)
  match vty.inner with
  | .vector size .float width =>
      if size = columns ∧ width = resWidth then pure ()
      else errM (.unsupportedType vectorTypeLookup.token)
  | _ => errM (.unsupportedType vectorTypeLookup.token)
  let (exprs, tok) := appendT f.expressions (.mul matrixLexp.token vectorLexp.token)
  insertExprM resultId { token := tok, typeId := resultTypeId }
  pure { f with expressions := exprs }

/-- Op::SampledImage handler (src lines 615-628). -/
def handleSampledImage (inst : Instruction) (f : Function) : M Function := do
  inst.expect 5
  let _resultTypeId ← next
  let resultId ← next
  let imageId ← next
  let samplerId ← next
  let imageLexp ← lookupExprM imageId
  let samplerLexp ← lookupExprM samplerId
  modifyM fun s =>
    { s with lookupSampledImage :=
        (minsert s.lookupSampledImage resultId
          ⟨imageLexp.token, samplerLexp.token⟩) }
  pure f

/-- Op::ImageSampleImplicitLod handler (src lines 629-653); additional
image-operand words are not consumed. -/
def handleImageSampleImplicitLod (inst : Instruction) (typeStore : List Ty)
    (f : Function) : M Function := do
  inst.expectAtLeast 5
  let resultTypeId ← next
  let resultId ← next
  let sampledImageId ← next
  let coordinateId ← next
  let siLexp ← lookupSampledImageM sampledImageId
  let coordLexp ← lookupExprM coordinateId
  let coordTypeLookup ← lookupTypeM coordLexp.typeId
  let cty ← liftR (storIdx typeStore coordTypeLookup.token)
  match cty.inner with
  | .scalar .float _ => pure ()
  | .vector _ .float _ => pure ()
  | _ => errM (.unsupportedType coordTypeLookup.token)
  let (exprs, tok) := appendT f.expressions
    (.imageSample siLexp.image siLexp.sampler coordLexp.token)
  insertExprM resultId { token := tok, typeId := resultTypeId }
  pure { f with expressions := exprs }

/-- Parser::next_block (src lines 354-658): decode instructions until
Op::Return.  The fuel argument is a structural bound used to form the
recursion; every iteration consumes at least one stream word, so a call
with fuel > length of the remaining stream can never exhaust it (the
0 case is unreachable and modelled as a panic). -/
def nextBlock (typeStore : List Ty) (constStore : List Constant) :
    Nat → Function → M Function
  | 0, _ => panicM
  | fuel + 1, f => do
      let inst ← nextInst
      match inst.op with
      | .accessChain => do
          let f2 ← handleAccessChain inst typeStore constStore f
          nextBlock typeStore constStore fuel f2
      | .compositeExtract => do
          let f2 ← handleCompositeExtract inst typeStore f
          nextBlock typeStore constStore fuel f2
      | .compositeConstruct => do
          let f2 ← handleCompositeConstruct inst f
          nextBlock typeStore constStore fuel f2
      | .load => do
          let f2 ← handleLoad inst typeStore f
          nextBlock typeStore constStore fuel f2
      | .store => do
          let f2 ← handleStore inst typeStore f
          nextBlock typeStore constStore fuel f2
      | .ret => do
          inst.expect 1
          pure { f with body := f.body ++ [.ret none] }
      | .vectorTimesScalar => do
          let f2 ← handleVectorTimesScalar inst typeStore f
          nextBlock typeStore constStore fuel f2
      | .matrixTimesVector => do
          let f2 ← handleMatrixTimesVector inst typeStore f
          nextBlock typeStore constStore fuel f2
      | .sampledImage => do
          let f2 ← handleSampledImage inst f
          nextBlock typeStore constStore fuel f2
      | .imageSampleImplicitLod => do
          let f2 ← handleImageSampleImplicitLod inst typeStore f
          nextBlock typeStore constStore fuel f2
      | op => do
          let s ← getM
          errM (.unsupportedInstruction s.state op)

/-! ## Module construction helpers -/

/-- self.future_decor.remove(&id).and_then(|dec| dec.name). -/
def takeFutureDecorName (id : Word) : M (Option String) := fun s =>
  .ok ((mfind s.futureDecor id).bind (fun d => d.name),
       { s with futureDecor := mremove s.futureDecor id })

def appendTypeM (t : Ty) : M Nat := fun s =>
  let (ts, tok) := appendT s.module.types t
  .ok (tok, { s with module := { s.module with types := ts } })

def appendConstantM (c : Constant) : M Nat := fun s =>
  let (cs, tok) := appendT s.module.constants c
  .ok (tok, { s with module := { s.module with constants := cs } })

def appendGlobalVariableM (v : GlobalVariable) : M Nat := fun s =>
  let (vs, tok) := appendT s.module.globalVariables v
  .ok (tok, { s with module := { s.module with globalVariables := vs } })

def appendFunctionM (f : Function) : M Nat := fun s =>
  let (fs, tok) := appendT s.module.functions f
  .ok (tok, { s with module := { s.module with functions := fs } })

def insertLookupTypeM (id : Word) (lt : LookupType) : M Unit :=
  modifyM fun s => { s with lookupType := (minsert s.lookupType id lt) }

/-- spirv::FunctionControl::from_bits — the known bits are
Inline | DontInline | Pure | Const = 0xF; any other set bit gives None. -/
def functionControlFromBits (c : Nat) : Option Nat :=
  if c < 16 then some c else none

/-- crate::ImageFlags bits (crate root, not under src/); the exact bit
assignment is not observable by any claim. -/
def FLAG_ARRAYED : Nat := 1
def FLAG_MULTISAMPLED : Nat := 2
def FLAG_SAMPLED : Nat := 4
def FLAG_CAN_LOAD : Nat := 8
def FLAG_CAN_STORE : Nat := 16

/-! ## Top-level instruction handlers (the match arms of Parser::parse,
src lines 706-1322) -/

/-- Op::Capability (src lines 710-723). -/
def handleCapability (inst : Instruction) : M Unit := do
  switchM .capability inst.op
  inst.expect 2
  let capability ← next
  if LAST_KNOWN_CAPABILITY < capability then
    errM (.unknownCapability capability)
  else if !(SUPPORTED_CAPABILITIES.contains capability) then
    errM (.unsupportedCapability capability)
  else pure ()

/-- Op::Extension (src lines 724-734). -/
def handleExtension (inst : Instruction) : M Unit := do
  switchM .extension inst.op
  inst.expectAtLeast 2
  let (nm, left) ← nextString (inst.wc - 1)
  if left ≠ 0 then errM .invalidOperand else pure ()
  if !(SUPPORTED_EXTENSIONS.contains nm) then
    errM (.unsupportedExtension nm)
  else pure ()

/-- Op::ExtInstImport (src lines 735-746); note it also targets the
Extension phase. -/
def handleExtInstImport (inst : Instruction) : M Unit := do
  switchM .extension inst.op
  inst.expectAtLeast 3
  let _result ← next
  let (nm, left) ← nextString (inst.wc - 2)
  if left ≠ 0 then errM .invalidOperand else pure ()
  if !(SUPPORTED_EXT_SETS.contains nm) then
    errM (.unsupportedExtSet nm)
  else pure ()

/-- Op::MemoryModel (src lines 747-752). -/
def handleMemoryModel (inst : Instruction) : M Unit := do
  switchM .memoryModel inst.op
  inst.expect 3
  let _addressingModel ← next
  let _memoryModel ← next
  pure ()

/-- Op::EntryPoint (src lines 753-774): buffered for the post-pass; the
variable ids are the leftover words (take never fails). -/
def handleEntryPoint (inst : Instruction) : M Unit := do
  switchM .entryPoint inst.op
  inst.expectAtLeast 4
  let execModel ← next
  if LAST_KNOWN_EXECUTION_MODEL < execModel then
    errM (.unsupportedExecutionModel execModel)
  else pure ()
  let functionId ← next
  let (nm, left) ← nextString (inst.wc - 3)
  let variableIds ← takeWords left
  modifyM fun s =>
    { s with entryPoints := s.entryPoints ++ [⟨execModel, nm, functionId, variableIds⟩] }

/-- Op::ExecutionMode (src lines 775-783): consumed and discarded. -/
def handleExecutionMode (inst : Instruction) : M Unit := do
  switchM .executionMode inst.op
  inst.expectAtLeast 3
  let _epId ← next
  let _mode ← next
  drainN (inst.wc - 3)

/-- Op::Source (src lines 784-789): consumed and discarded. -/
def handleSource (inst : Instruction) : M Unit := do
  switchM .source inst.op
  drainN (inst.wc - 1)

/-- Op::SourceExtension (src lines 790-794). -/
def handleSourceExtension (inst : Instruction) : M Unit := do
  switchM .source inst.op
  inst.expectAtLeast 2
  let _ ← nextString (inst.wc - 1)
  pure ()

/-- Op::Name (src lines 795-807): buffer the name into the pending
decoration (entry-or-default, then set the name field). -/
def handleName (inst : Instruction) : M Unit := do
  switchM .name inst.op
  inst.expectAtLeast 3
  let id ← next
  let (nm, left) ← nextString (inst.wc - 2)
  if left ≠ 0 then errM .invalidOperand else pure ()
  modifyM fun s =>
    let d := (mfind s.futureDecor id).getD {}
    { s with futureDecor := (minsert s.futureDecor id { d with name := some nm }) }

/-- Op::MemberName (src lines 808-821). -/
def handleMemberName (inst : Instruction) : M Unit := do
  switchM .name inst.op
  inst.expectAtLeast 4
  let id ← next
  let member ← next
  let (nm, left) ← nextString (inst.wc - 3)
  if left ≠ 0 then errM .invalidOperand else pure ()
  modifyM fun s =>
    let d := (mfind s.futureMemberDecor (id, member)).getD {}
    { s with futureMemberDecor :=
        (minsert s.futureMemberDecor (id, member) { d with name := some nm }) }

/-- Op::Decorate (src lines 822-831). -/
def handleDecorate (inst : Instruction) : M Unit := do
  switchM .annot inst.op
  inst.expectAtLeast 3
  let id ← next
  let s ← getM
  let dec := (mfind s.futureDecor id).getD {}
  setM { s with futureDecor := mremove s.futureDecor id }
  let dec2 ← nextDecoration inst 2 dec
  modifyM fun s2 => { s2 with futureDecor := (minsert s2.futureDecor id dec2) }

/-- Op::MemberDecorate (src lines 832-842). -/
def handleMemberDecorate (inst : Instruction) : M Unit := do
  switchM .annot inst.op
  inst.expectAtLeast 4
  let id ← next
  let member ← next
  let s ← getM
  let dec := (mfind s.futureMemberDecor (id, member)).getD {}
  setM { s with futureMemberDecor := mremove s.futureMemberDecor (id, member) }
  let dec2 ← nextDecoration inst 3 dec
  modifyM fun s2 =>
    { s2 with futureMemberDecor := (minsert s2.futureMemberDecor (id, member) dec2) }

/-- Op::TypeVoid (src lines 843-848). -/
def handleTypeVoid (inst : Instruction) : M Unit := do
  switchM .type inst.op
  inst.expect 2
  let id ← next
  modifyM fun s => { s with lookupVoidType := sinsert s.lookupVoidType id }

/-- Modelled from the spec: the IR scalar width field is an 8-bit type
declared in the crate root (not under src/; spec section 3 has
Scalar{kind, width}); width.try_into::<u8>() in the source fails exactly
when the word exceeds 255, yielding InvalidTypeWidth(width). -/
def widthToU8 (width : Word) : M Nat :=
  if width < 256 then pure width else errM (.invalidTypeWidth width)

/-- Op::TypeInt (src lines 849-874). -/
def handleTypeInt (inst : Instruction) : M Unit := do
  switchM .type inst.op
  inst.expect 4
  let id ← next
  let width ← next
  let sign ← next
  let kind ←
    match sign with
    | 0 => pure ScalarKind.uint
    | 1 => pure ScalarKind.sint
    | _ => errM (.invalidSign sign)
  let w ← widthToU8 width
  let nm ← takeFutureDecorName id
  let tok ← appendTypeM { name := nm, inner := .scalar kind w }
  insertLookupTypeM id { token := tok, baseId := none }

/-- Op::TypeFloat (src lines 875-895). -/
def handleTypeFloat (inst : Instruction) : M Unit := do
  switchM .type inst.op
  inst.expect 3
  let id ← next
  let width ← next
  let w ← widthToU8 width
  let nm ← takeFutureDecorName id
  let tok ← appendTypeM { name := nm, inner := .scalar .float w }
  insertLookupTypeM id { token := tok, baseId := none }

/-- Op::TypeVector (src lines 896-921). -/
def handleTypeVector (inst : Instruction) : M Unit := do
  switchM .type inst.op
  inst.expect 4
  let id ← next
  let typeId ← next
  let tl ← lookupTypeM typeId
  let s ← getM
  let ity ← liftR (storIdx s.module.types tl.token)
  let kw ←
    match ity.inner with
    | .scalar kind width => pure (kind, width)
    | _ => errM (.invalidInnerType typeId)
  let componentCount ← next
  let size ← liftR (mapVectorSize componentCount)
  let nm ← takeFutureDecorName id
  let tok ← appendTypeM { name := nm, inner := .vector size kw.1 kw.2 }
  insertLookupTypeM id { token := tok, baseId := some typeId }

/-- Op::TypeMatrix (src lines 922-947). -/
def handleTypeMatrix (inst : Instruction) : M Unit := do
  switchM .type inst.op
  inst.expect 4
  let id ← next
  let vectorTypeId ← next
  let numColumns ← next
  let vtl ← lookupTypeM vectorTypeId
  let s ← getM
  let vty ← liftR (storIdx s.module.types vtl.token)
  let inner ←
    match vty.inner with
    | .vector size kind width => do
        let columns ← liftR (mapVectorSize numColumns)
        pure (TypeInner.matrix columns size kind width)
    | _ => errM (.invalidInnerType vectorTypeId)
  let nm ← takeFutureDecorName id
  let tok ← appendTypeM { name := nm, inner }
  insertLookupTypeM id { token := tok, baseId := some vectorTypeId }

/-- Op::TypeFunction (src lines 948-961). -/
def handleTypeFunction (inst : Instruction) : M Unit := do
  switchM .type inst.op
  inst.expectAtLeast 3
  let id ← next
  let returnTypeId ← next
  let parameterTypeIds ← takeWords (inst.wc - 3)
  modifyM fun s =>
    { s with lookupFunctionType :=
        (minsert s.lookupFunctionType id ⟨parameterTypeIds, returnTypeId⟩) }

/-- Op::TypePointer (src lines 962-981). -/
def handleTypePointer (inst : Instruction) : M Unit := do
  switchM .type inst.op
  inst.expect 4
  let id ← next
  let storage ← next
  let typeId ← next
  let btl ← lookupTypeM typeId
  let cls ← liftR (mapStorageClass storage)
  let nm ← takeFutureDecorName id
  let tok ← appendTypeM { name := nm, inner := .pointer btl.token cls }
  insertLookupTypeM id { token := tok, baseId := some typeId }

/-- Op::TypeArray (src lines 982-1001). -/
def handleTypeArray (inst : Instruction) : M Unit := do
  switchM .type inst.op
  inst.expect 4
  let id ← next
  let typeId ← next
  let length ← next
  let btl ← lookupTypeM typeId
  let nm ← takeFutureDecorName id
  let tok ← appendTypeM { name := nm, inner := .array btl.token (.static length) }
  insertLookupTypeM id { token := tok, baseId := some typeId }

/-- Op::TypeRuntimeArray (src lines 1002-1020); the source checks for a
word count of 4 even though it reads only two operand words. -/
def handleTypeRuntimeArray (inst : Instruction) : M Unit := do
  switchM .type inst.op
  inst.expect 4
  let id ← next
  let typeId ← next
  let btl ← lookupTypeM typeId
  let nm ← takeFutureDecorName id
  let tok ← appendTypeM { name := nm, inner := .array btl.token .dynamic }
  insertLookupTypeM id { token := tok, baseId := some typeId }

/-- The member walk of Op::TypeStruct (src lines 1026-1039). -/
def typeStructLoop (id : Word) : Nat → Nat → List StructMember → M (List StructMember)
  | _, 0, members => pure members
  | i, n + 1, members => do
      let typeId ← next
      let tl ← lookupTypeM typeId
      modifyM fun s =>
        { s with lookupMemberTypeId := (minsert s.lookupMemberTypeId (id, i) typeId) }
      let s ← getM
      let decor := (mfind s.futureMemberDecor (id, i)).getD {}
      setM { s with futureMemberDecor := mremove s.futureMemberDecor (id, i) }
      let binding := decor.getBinding
      typeStructLoop id (i + 1) n (members ++ [⟨decor.name, binding, tl.token⟩])

/-- Op::TypeStruct (src lines 1021-1052). -/
def handleTypeStruct (inst : Instruction) : M Unit := do
  switchM .type inst.op
  inst.expectAtLeast 2
  let id ← next
  let members ← typeStructLoop id 0 (inst.wc - 2) []
  let nm ← takeFutureDecorName id
  let tok ← appendTypeM { name := nm, inner := .struct members }
  insertLookupTypeM id { token := tok, baseId := none }

/-- Op::TypeImage (src lines 1053-1104). -/
def handleTypeImage (inst : Instruction) : M Unit := do
  switchM .type inst.op
  inst.expectAtLeast 9
  let id ← next
  let sampleTypeId ← next
  let dim ← next
  let _isDepth ← next
  let arrayed ← next
  let flags1 := if arrayed ≠ 0 then FLAG_ARRAYED else 0
  let ms ← next
  let flags2 := if ms ≠ 0 then flags1 ||| FLAG_MULTISAMPLED else flags1
  let isSampled ← next
  let flags3 := if isSampled ≠ 0 then flags2 ||| FLAG_SAMPLED else flags2
  let _format ← next
  let flags4 ←
    if 9 < inst.wc then do
      inst.expect 10
      let access ← next
      let fa := if access = 0 ∨ access = 2 then flags3 ||| FLAG_CAN_LOAD else flags3
      pure (if access = 1 ∨ access = 2 then fa ||| FLAG_CAN_STORE else fa)
    else pure flags3
  let s ← getM
  let decor := (mfind s.futureDecor id).getD {}
  setM { s with futureDecor := mremove s.futureDecor id }
  let stl ← lookupTypeM sampleTypeId
  let dimChecked ←
    if LAST_KNOWN_DIM < dim then errM (.unsupportedDim dim) else pure dim
  let tok ← appendTypeM { name := decor.name, inner := .image stl.token dimChecked flags4 }
  insertLookupTypeM id { token := tok, baseId := some sampleTypeId }

/-- Op::TypeSampledImage (src lines 1105-1114): aliases the image type's
token under the new id. -/
def handleTypeSampledImage (inst : Instruction) : M Unit := do
  switchM .type inst.op
  inst.expect 3
  let id ← next
  let imageId ← next
  let il ← lookupTypeM imageId
  insertLookupTypeM id { token := il.token, baseId := some imageId }

/-- Op::TypeSampler (src lines 1115-1130). -/
def handleTypeSampler (inst : Instruction) : M Unit := do
  switchM .type inst.op
  inst.expect 2
  let id ← next
  let s ← getM
  let decor := (mfind s.futureDecor id).getD {}
  setM { s with futureDecor := mremove s.futureDecor id }
  let tok ← appendTypeM { name := decor.name, inner := .sampler }
  insertLookupTypeM id { token := tok, baseId := none }

/-- Op::Constant and Op::SpecConstant (src lines 1131-1192).  A 32-bit
Sint constant gets an unconditional high word of !0 (0xFFFFFFFF) before
the u64 pattern is reinterpreted as i64. -/
def handleConstant (inst : Instruction) : M Unit := do
  switchM .type inst.op
  inst.expectAtLeast 3
  let typeId ← next
  let id ← next
  let typeLookup ← lookupTypeM typeId
  let s ← getM
  let ty ← liftR (storIdx s.module.types typeLookup.token)
  let inner ←
    match ty.inner with
    | .scalar .uint width => do
        let low ← next
        let high ←
          if 32 < width then do
            inst.expect 4
            next
          else pure 0
        pure (ConstantInner.uint (word64 high low))
    | .scalar .sint width => do
        let low ← next
        let high ←
          if width < 32 then errM (.invalidTypeWidth width)
          else if 32 < width then do
            inst.expect 4
            next
          else pure 4294967295
        pure (ConstantInner.sint (i64OfU64 (word64 high low)))
    | .scalar .float width => do
        let low ← next
        let v ←
          if width < 32 then errM (.invalidTypeWidth width)
          else if 32 < width then do
            inst.expect 4
            let high ← next
            pure (FloatValue.ofF64Bits (word64 high low))
          else pure (FloatValue.ofF32Bits low)
        pure (ConstantInner.float v)
    | _ => errM (.unsupportedType typeLookup.token)
  let nm ← takeFutureDecorName id
  let tok ← appendConstantM { name := nm, specialization := none, inner }
  modifyM fun s2 =>
    { s2 with lookupConstant := (minsert s2.lookupConstant id ⟨tok, typeId⟩) }

/-! ## Op::Variable (src lines 1193-1248) -/

/-- The member check of the input/output struct case (src lines 1214-1219):
the first member without a binding fails the whole variable. -/
def checkMemberBindings (id : Word) : List StructMember → Res Unit
  | [] => .ok ()
  | m :: rest =>
      if m.binding.isNone then .err (.invalidBinding id)
      else checkMemberBindings id rest

/-- dec.get_binding().ok_or(Error::InvalidBinding(id)) wrapped in Some —
the arm the source repeats for every non-I/O-struct variable. -/
def nonIOBinding (dec : Decoration) (id : Word) : Res (Option Binding) :=
  match dec.getBinding with
  | some b => .ok (some b)
  | none => .err (.invalidBinding id)

/-- The shared body of the two pointer match arms (storage class Input or
Output, src lines 1208-1229). -/
def ioPointerBinding (types : List Ty) (base : Nat) (dec : Decoration)
    (id : Word) : Res (Option Binding) := do
  let baseTy ← storIdx types base
  match baseTy.inner with
  | .struct members => do
      checkMemberBindings id members
      pure none
  | _ => nonIOBinding dec id

/-- The binding computation of the Op::Variable handler (src lines
1207-1236), applied to the variable's resolved type token. -/
def variableBinding (types : List Ty) (tok : Nat) (dec : Decoration)
    (id : Word) : Res (Option Binding) := do
  let ty ← storIdx types tok
  match ty.inner with
  | .pointer base cls =>
      if cls = SC_Input ∨ cls = SC_Output then ioPointerBinding types base dec id
      else nonIOBinding dec id
  | _ => nonIOBinding dec id

/-- Op::Variable handler.  Note that the pending decoration entry is
fetched with ok_or(InvalidBinding(id)) before the type is inspected:
a variable with no pending decoration at all always fails. -/
def handleVariable (inst : Instruction) : M Unit := do
  switchM .type inst.op
  inst.expectAtLeast 4
  let typeId ← next
  let id ← next
  let storage ← next
  if inst.wc ≠ 4 then do
    inst.expect 5
    let _init ← next
    pure ()
  else pure ()
  let lt ← lookupTypeM typeId
  let s ← getM
  let dec ←
    match mfind s.futureDecor id with
    | some d => do
        setM { s with futureDecor := mremove s.futureDecor id }
        pure d
    | none => errM (.invalidBinding id)
  let s2 ← getM
  let binding ← liftR (variableBinding s2.module.types lt.token dec id)
  let cls ← liftR (mapStorageClass storage)
  let tok ← appendGlobalVariableM { name := dec.name, cls, binding, ty := lt.token }
  modifyM fun s3 =>
    { s3 with lookupVariable := (minsert s3.lookupVariable id ⟨tok, typeId⟩) }

/-! ## Op::Function (src lines 1249-1318) -/

/-- Parser::make_expression_storage (src lines 660-679): seed the
expression table with one expression per global variable and per
constant.  The source asserts lookup_expression is empty on entry. -/
def makeExpressionStorage : M (List Expression) := fun s =>
  if s.lookupExpression.isEmpty then
    let step1 := s.lookupVariable.foldl
      (fun (acc : List Expression × List (Word × LookupExpression))
           (p : Word × LookupVariable) =>
        let (e, t) := appendT acc.1 (.globalVariable p.2.token)
        (e, minsert acc.2 p.1 ⟨t, p.2.typeId⟩))
      ([], s.lookupExpression)
    let step2 := s.lookupConstant.foldl
      (fun (acc : List Expression × List (Word × LookupExpression))
           (p : Word × LookupConstant) =>
        let (e, t) := appendT acc.1 (.constant p.2.token)
        (e, minsert acc.2 p.1 ⟨t, p.2.typeId⟩))
      step1
    .ok (step2.1, { s with lookupExpression := step2.2 })
  else .panic

/-- The FunctionParameter loop (src lines 1278-1295); the i-th parameter
type must match the function type's i-th parameter type id. -/
def readParams (funType : Word) : Nat → Nat → Function → M Function
  | _, 0, f => pure f
  | i, n + 1, f => do
      let pinst ← nextInst
      if pinst.op = Op.functionParameter ∧ pinst.wc = 3 then do
        let typeId ← next
        let _id ← next
        let ft ← lookupFunctionTypeM funType
        let expected ← unwrapM (ft.parameterTypeIds.get? i)
        if typeId ≠ expected then errM (.wrongFunctionParameterType typeId)
        else pure ()
        let lt ← lookupTypeM typeId
        readParams funType (i + 1) n
          { f with parameterTypes := f.parameterTypes ++ [lt.token] }
      else errM (.invalidParameter pinst.op)

/-- The body loop of Op::Function (src lines 1297-1312): Label blocks
until FunctionEnd.  Fueled like nextBlock. -/
def functionBodyLoop : Nat → Function → M Function
  | 0, _ => panicM
  | fuel + 1, f => do
      let finst ← nextInst
      match finst.op with
      | .label => do
          finst.expect 2
          let _id ← next
          let s ← getM
          let f2 ← nextBlock s.module.types s.module.constants (s.data.length + 1) f
          functionBodyLoop fuel f2
      | .functionEnd => do
          finst.expect 1
          pure f
      | op => do
          let s ← getM
          errM (.unsupportedInstruction s.state op)

/-- Op::Function handler. -/
def handleFunction (inst : Instruction) : M Unit := do
  switchM .function inst.op
  inst.expect 5
  let resultType ← next
  let funId ← next
  let funControl ← next
  let funType ← next
  let ft ← lookupFunctionTypeM funType
  if ft.returnTypeId ≠ resultType then errM (.wrongFunctionResultType resultType)
  else pure ()
  let nm ← takeFutureDecorName funId
  let control ←
    match functionControlFromBits funControl with
    | some c => pure c
    | none => errM (.unsupportedFunctionControl funControl)
  let s ← getM
  let returnType ←
    if s.lookupVoidType.contains resultType then pure none
    else do
      let lt ← lookupTypeM resultType
      pure (some lt.token)
  let exprs ← makeExpressionStorage
  let f0 : Function :=
    { name := nm, control, parameterTypes := [], returnType
      expressions := exprs, body := [] }
  let f1 ← readParams funType 0 ft.parameterTypeIds.length f0
  let s2 ← getM
  let f2 ← functionBodyLoop (s2.data.length + 1) f1
  let tok ← appendFunctionM f2
  modifyM fun s3 =>
    { s3 with
      lookupFunction := (minsert s3.lookupFunction funId tok),
      lookupExpression := [], lookupSampledImage := [] }

/-! ## Parser::parse (src lines 690-1354) -/

/-- The dispatch of one top-level instruction (the match of the main
loop).  Every opcode in the known range without a handler falls to
UnsupportedInstruction(current state, op). -/
def parseInst (inst : Instruction) : M Unit :=
  match inst.op with
  | .capability => handleCapability inst
  | .extension => handleExtension inst
  | .extInstImport => handleExtInstImport inst
  | .memoryModel => handleMemoryModel inst
  | .entryPoint => handleEntryPoint inst
  | .executionMode => handleExecutionMode inst
  | .source => handleSource inst
  | .sourceExtension => handleSourceExtension inst
  | .name => handleName inst
  | .memberName => handleMemberName inst
  | .decorate => handleDecorate inst
  | .memberDecorate => handleMemberDecorate inst
  | .typeVoid => handleTypeVoid inst
  | .typeInt => handleTypeInt inst
  | .typeFloat => handleTypeFloat inst
  | .typeVector => handleTypeVector inst
  | .typeMatrix => handleTypeMatrix inst
  | .typeFunction => handleTypeFunction inst
  | .typePointer => handleTypePointer inst
  | .typeArray => handleTypeArray inst
  | .typeRuntimeArray => handleTypeRuntimeArray inst
  | .typeStruct => handleTypeStruct inst
  | .typeImage => handleTypeImage inst
  | .typeSampledImage => handleTypeSampledImage inst
  | .typeSampler => handleTypeSampler inst
  | .constant => handleConstant inst
  | .specConstant => handleConstant inst
  | .variable => handleVariable inst
  | .function => handleFunction inst
  | op => do
      let s ← getM
      errM (.unsupportedInstruction s.state op)

/-- The main loop: while let Ok(inst) = self.next_inst() { ... }.
Any error from next_inst — clean end of stream (IncompleteData), but
also a malformed word (InvalidWordCount) or an out-of-range opcode
(UnknownInstruction) — exits the loop normally with the error value
dropped.  A failing next_inst has consumed at most the one instruction
word, hence the data.drop 1 on exit.  Errors from handlers propagate. -/
def parseLoop : Nat → M Unit
  | 0 => panicM
  | fuel + 1 => fun s =>
      match nextInst s with
      | .ok (inst, s2) =>
          match parseInst inst s2 with
          | .ok ((), s3) => parseLoop fuel s3
          | .err e => .err e
          | .panic => .panic
      | .err _ => .ok ((), { s with data := s.data.drop 1 })
      | .panic => .panic

/-- The per-entry-point variable partition (src lines 1342-1349):
Input-class variables are appended to inputs, Output-class to outputs,
anything else fails InvalidVariableClass; an unknown id fails InvalidId
from the lookup. -/
def resolveVars (lookupVar : List (Word × LookupVariable))
    (gvars : List GlobalVariable) :
    List Word → List Nat × List Nat → Res (List Nat × List Nat)
  | [], acc => .ok acc
  | varId :: rest, acc => do
      let lv ← mlookup lookupVar varId
      let gv ← storIdx gvars lv.token
      if gv.cls = SC_Input then
        resolveVars lookupVar gvars rest (acc.1 ++ [lv.token], acc.2)
      else if gv.cls = SC_Output then
        resolveVars lookupVar gvars rest (acc.1, acc.2 ++ [lv.token])
      else .err (.invalidVariableClass gv.cls)

/-- The entry-point materialization pass (src lines 1333-1351). -/
def resolveLoop : List RawEntryPoint → M Unit
  | [] => pure ()
  | raw :: rest => do
      let s ← getM
      let ftok ← liftR (mlookup s.lookupFunction raw.functionId)
      let io ← liftR (resolveVars s.lookupVariable s.module.globalVariables
        raw.variableIds ([], []))
      modifyM fun s2 =>
        { s2 with module := { s2.module with entryPoints :=
            s2.module.entryPoints ++ [⟨raw.execModel, raw.name, ftok, io.1, io.2⟩] } }
      resolveLoop rest

/-- Parser::parse: header, main loop, leftover-decoration cleanup
(warnings only), entry-point resolution. -/
def parseM : M Module := do
  let magic ← next
  if magic ≠ MAGIC_NUMBER then errM .invalidHeader else pure ()
  let versionRaw ← next
  let generator ← next
  let _bound ← next
  let _schema ← next
  let header : Header :=
    { version := (versionRaw / 65536 % 256, versionRaw / 256 % 256, versionRaw % 256)
      generator }
  modifyM fun s => { s with module := Module.fromHeader header }
  let s ← getM
  parseLoop (s.data.length + 1)
  modifyM fun s2 => { s2 with futureDecor := [], futureMemberDecor := [] }
  let s3 ← getM
  resolveLoop s3.entryPoints
  let s4 ← getM
  pure s4.module

/-- Run the parser on a word stream from a fresh state (Parser::new
followed by Parser::parse). -/
def parse (data : List Word) : Res Module :=
  match parseM (initSt data) with
  | .ok (m, _) => .ok m
  | .err e => .err e
  | .panic => .panic

/-! # Theorems -/

/-! ## C7 — phase monotonicity of Parser::switch -/

/-- C7: the module phase index is monotonically non-decreasing across
processed top-level instructions: whenever an instruction's target phase
is strictly below the current phase, switch fails with
UnsupportedInstruction(current phase, opcode); otherwise the current
phase becomes the target phase (which is at least the old phase). -/
theorem C7_switch_monotone (s : St) (target : ModuleState) (op : Op) :
    (target.toNat < s.state.toNat →
      switchM target op s = .err (.unsupportedInstruction s.state op))
    ∧ (s.state.toNat ≤ target.toNat →
      switchM target op s = .ok ((), { s with state := target })
        ∧ s.state.toNat ≤ ({ s with state := target }).state.toNat) := by
  constructor
  · intro h
    simp [switchM, h]
  · intro h
    refine ⟨?_, by simpa using h⟩
    simp [switchM, Nat.not_lt.mpr h]

/-- Witness for C7 at concrete states: advancing Empty to Capability
succeeds; regressing from Function to Capability fails. -/
theorem C7_switch_monotone_witness :
    switchM .capability .capability (initSt []) =
      .ok ((), { initSt [] with state := .capability })
    ∧ switchM .capability .capability { initSt [] with state := .function } =
      .err (.unsupportedInstruction .function .capability) := by
  constructor
  · exact ((C7_switch_monotone (initSt []) .capability .capability).2
      (by decide)).1
  · exact (C7_switch_monotone { initSt [] with state := .function }
      .capability .capability).1 (by decide)

/-! ## C5 — OpCapability trichotomy -/

/-- C5: for OpCapability, a capability word above the last known
capability (5346) fails UnknownCapability(word); a word in the known
range but outside the supported set {Shader} = {1} fails
UnsupportedCapability (not UnknownCapability); the word Shader = 1
succeeds. -/
theorem C5_capability_trichotomy (s : St) (inst : Instruction) (w : Word)
    (rest : List Word) (hdata : s.data = w :: rest) (hwc : inst.wc = 2)
    (hstate : s.state.toNat ≤ ModuleState.capability.toNat) :
    (LAST_KNOWN_CAPABILITY < w →
      handleCapability inst s = .err (.unknownCapability w))
    ∧ (w ≤ LAST_KNOWN_CAPABILITY → w ≠ 1 →
      handleCapability inst s = .err (.unsupportedCapability w))
    ∧ (w = 1 →
      handleCapability inst s = .ok ((), { s with state := .capability, data := rest })) := by
  have hswitch : ¬ ModuleState.capability.toNat < s.state.toNat :=
    Nat.not_lt.mpr hstate
  refine ⟨?_, ?_, ?_⟩
  · intro h
    simp [handleCapability, switchM, hswitch, Instruction.expect, hwc,
      next, hdata, h]
  · intro hle hne
    simp [handleCapability, switchM, hswitch, Instruction.expect, hwc,
      next, hdata, Nat.not_lt.mpr hle, SUPPORTED_CAPABILITIES, hne]
  · intro h1
    subst h1
    simp [handleCapability, switchM, hswitch, Instruction.expect, hwc,
      next, hdata, SUPPORTED_CAPABILITIES, LAST_KNOWN_CAPABILITY]

/-- Witness for C5: the spec's scenario 2 — capability word 2 (Geometry)
is in the known range but unsupported — plus the two other branches. -/
theorem C5_capability_trichotomy_witness :
    handleCapability ⟨.capability, 2⟩ (initSt [2]) =
      .err (.unsupportedCapability 2)
    ∧ handleCapability ⟨.capability, 2⟩ (initSt [6000]) =
      .err (.unknownCapability 6000)
    ∧ handleCapability ⟨.capability, 2⟩ (initSt [1]) =
      .ok ((), { initSt [1] with state := .capability, data := [] }) := by
  refine ⟨?_, ?_, ?_⟩
  · exact (C5_capability_trichotomy (initSt [2]) ⟨.capability, 2⟩ 2 []
      rfl rfl (by decide)).2.1 (by decide) (by decide)
  · exact (C5_capability_trichotomy (initSt [6000]) ⟨.capability, 2⟩ 6000 []
      rfl rfl (by decide)).1 (by decide)
  · exact (C5_capability_trichotomy (initSt [1]) ⟨.capability, 2⟩ 1 []
      rfl rfl (by decide)).2.2 rfl

/-! ## C1 — malformed top-level instruction words -/

/-- Valid header (magic, version 1.0.0, generator 0, bound 0, schema 0)
followed by the instruction word (wc = 1, opcode = 0xFFFE). -/
def c1WordsUnknownOp : List Word :=
  [0x07230203, 0x00010000, 0, 0, 0, 0x0001FFFE]

/-- The same header followed by an instruction word with wc = 0. -/
def c1WordsZeroWc : List Word :=
  [0x07230203, 0x00010000, 0, 0, 0, 0x0000002A]

/-- The module such an input yields: header only, everything empty. -/
def emptyModule100 : Module :=
  { header := { version := (1, 0, 0), generator := 0 }
    types := [], constants := [], globalVariables := []
    functions := [], entryPoints := [] }

set_option maxRecDepth 10000 in
set_option maxHeartbeats 1000000 in
/-- C1: after a valid header, a top-level instruction word with
word-count 0 or an opcode above the supported table does make next_inst
return InvalidWordCount respectively UnknownInstruction(opcode) — but
Parser::parse pattern-matches the loop condition
(while let Ok(inst) = self.next_inst()), so both errors are swallowed
and the parse terminates NORMALLY with a partial module, contradicting
the claimed behaviour. -/
theorem C1_malformed_inst_swallowed_by_parse :
    nextInst (initSt [0x0001FFFE]) = .err (.unknownInstruction 0xFFFE)
    ∧ nextInst (initSt [0x0000002A]) = .err .invalidWordCount
    ∧ parse c1WordsUnknownOp = .ok emptyModule100
    ∧ parse c1WordsZeroWc = .ok emptyModule100 := by
  refine ⟨by decide, by decide, by decide, by decide⟩

/-! ## C2 — 32-bit Sint constants are not sign-extended correctly -/

/-- State at the OpConstant instruction: type id 1 is a 32-bit signed
scalar (type token 0), and the operand words are type=1, result id=2,
literal word 5. -/
def c2St : St :=
  { initSt [1, 2, 5] with
    state := .type
    lookupType := [(1, ⟨0, none⟩)]
    module := { Module.fromHeader { version := (1, 0, 0), generator := 0 } with
      types := [{ name := none, inner := .scalar .sint 32 }] } }

/-- The state the Constant handler produces from c2St: the decoded
constant is Sint(-4294967291), not Sint(5). -/
def c2StOut : St :=
  { c2St with
    data := []
    lookupConstant := [(2, ⟨0, 1⟩)]
    module := { c2St.module with
      constants := [{ name := none, specialization := none
                      inner := .sint (-4294967291) }] } }

set_option maxRecDepth 10000 in
set_option maxHeartbeats 1000000 in
/-- C2: decoding a 32-bit signed OpConstant with literal word 5 (sign
bit clear) produces Sint(-4294967291) = 5 - 2^32, because the Constant
handler sets the high word to !0 = 0xFFFFFFFF unconditionally for width
32; true sign extension (the claimed behaviour, all-ones high word only
when the sign bit of the literal is set) would produce Sint(5). -/
theorem C2_sint32_high_word_always_ones :
    handleConstant ⟨.constant, 3⟩ c2St = .ok ((), c2StOut)
    ∧ ConstantInner.sint (-4294967291) ≠ ConstantInner.sint 5 := by
  refine ⟨by decide, by decide⟩

/-! ## C4 — out-of-range BuiltIn decoration words are skipped, not errors -/

/-- C4 counterexample: a Decorate instruction body carrying the BuiltIn
decoration (code 11) with built-in word 5265 = FullyCoveredEXT + 1
decodes successfully and leaves the pending decoration unchanged
(the source only logs a warning), contradicting the claim that an
Unknown*/Unsupported* error is returned. -/
theorem C4_counterexample_builtin_out_of_range_ok :
    nextDecoration ⟨.decorate, 4⟩ 2 {} (initSt [11, 5265]) =
      .ok ({}, { initSt [11, 5265] with data := [] }) := by
  decide

/-- C4 amended: a BuiltIn decoration whose built-in word exceeds the
last known built-in (FullyCoveredEXT = 5264) is skipped with a warning —
next_decoration succeeds and the built_in field is left unchanged —
while a decoration code word above the last known decoration
(NonUniformEXT = 5300) does fail, with InvalidDecoration. -/
theorem C4_builtin_out_of_range_warns (s : St) (inst : Instruction)
    (baseWords : Nat) (dec : Decoration) (raw2 : Word) (rest : List Word)
    (hdata : s.data = DEC_BuiltIn :: raw2 :: rest)
    (hwc : inst.wc = baseWords + 2)
    (hout : LAST_KNOWN_BUILT_IN < raw2) :
    nextDecoration inst baseWords dec s = .ok (dec, { s with data := rest })
    ∧ ∀ (s2 : St) (raw : Word) (rest2 : List Word),
        s2.data = raw :: rest2 → LAST_KNOWN_DECORATION < raw →
        nextDecoration inst baseWords dec s2 = .err (.invalidDecoration raw) := by
  constructor
  · simp [nextDecoration, next, hdata, Instruction.expect, hwc, hout,
      LAST_KNOWN_DECORATION, DEC_BuiltIn]
  · intro s2 raw rest2 hdata2 hraw
    simp [nextDecoration, next, hdata2, hraw]

/-- Witness for C4: the amended behaviour at the concrete inputs. -/
theorem C4_builtin_out_of_range_warns_witness :
    nextDecoration ⟨.decorate, 4⟩ 2 {} (initSt [11, 9000]) =
      .ok ({}, { initSt [11, 9000] with data := [] })
    ∧ nextDecoration ⟨.decorate, 4⟩ 2 {} (initSt [5301, 0]) =
      .err (.invalidDecoration 5301) := by
  constructor
  · exact (C4_builtin_out_of_range_warns (initSt [11, 9000]) ⟨.decorate, 4⟩
      2 {} 9000 [] rfl rfl (by decide)).1
  · exact (C4_builtin_out_of_range_warns (initSt [11, 9000]) ⟨.decorate, 4⟩
      2 {} 9000 [] rfl rfl (by decide)).2 (initSt [5301, 0]) 5301 [0]
      rfl (by decide)

/-! ## C9 — AccessChain unwrap panics when the base type has no base id -/

/-- C9: for OpAccessChain, when the base expression and its type resolve
but the type's recorded base_id is None (scalars, structs, samplers and
void-less entries are stored with base_id None), the handler panics on
Option::unwrap instead of returning an error. -/
theorem C9_access_chain_unwrap_panics (s : St) (inst : Instruction)
    (typeStore : List Ty) (constStore : List Constant) (f : Function)
    (r rid b : Word) (rest : List Word)
    (be : LookupExpression) (lt : LookupType)
    (hdata : s.data = r :: rid :: b :: rest)
    (hwc : 4 ≤ inst.wc)
    (hbe : mfind s.lookupExpression b = some be)
    (hlt : mfind s.lookupType be.typeId = some lt)
    (hnone : lt.baseId = none) :
    handleAccessChain inst typeStore constStore f s = .panic := by
  simp [handleAccessChain, Instruction.expectAtLeast, hwc, next, hdata,
    lookupExprM, lookupTypeM, mlookup, hbe, hlt, hnone]

/-- Witness for C9: a concrete state (base id 102 is an expression whose
type 7 is recorded with base_id None) on which the decoder panics. -/
theorem C9_access_chain_unwrap_panics_witness :
    handleAccessChain ⟨.accessChain, 4⟩ [] []
      { name := none, control := 0, parameterTypes := [], returnType := none
        expressions := [], body := [] }
      { initSt [100, 101, 102] with
        lookupExpression := [(102, ⟨0, 7⟩)]
        lookupType := [(7, ⟨0, none⟩)] } = .panic := by
  exact C9_access_chain_unwrap_panics _ _ _ _ _ 100 101 102 []
    ⟨0, 7⟩ ⟨0, none⟩ rfl (by decide) rfl rfl rfl

/-! ## Association-list lemmas shared by several claims -/

theorem mfind_append {κ α : Type} [DecidableEq κ]
    (l1 l2 : List (κ × α)) (k : κ) :
    mfind (l1 ++ l2) k =
      match mfind l1 k with
      | some v => some v
      | none => mfind l2 k := by
  induction l1 with
  | nil => simp [mfind]
  | cons p rest ih =>
      by_cases h : p.1 = k
      · simp [mfind, h]
      · simp [mfind, h, ih]

theorem mfind_mremove_self {κ α : Type} [DecidableEq κ]
    (m : List (κ × α)) (k : κ) :
    mfind (mremove m k) k = none := by
  induction m with
  | nil => simp [mremove, mfind]
  | cons p rest ih =>
      by_cases h : p.1 = k
      · simp [mremove, h, ih]
      · simp [mremove, mfind, h, ih]

theorem mfind_minsert_self {κ α : Type} [DecidableEq κ]
    (m : List (κ × α)) (k : κ) (v : α) :
    mfind (minsert m k v) k = some v := by
  simp [minsert, mfind_append, mfind_mremove_self, mfind]

/-! ## C10 — type widths must fit in 8 bits -/

/-- C10: for OpTypeInt (with a valid sign word) and OpTypeFloat, a width
operand above 255 fails with InvalidTypeWidth(width); any width that
fits in 8 bits — including widths below 32 — is accepted at
type-declaration time and stored in the new scalar type. -/
theorem C10_type_width_u8 :
    (∀ (s : St) (inst : Instruction) (id width sign : Word) (rest : List Word),
      s.data = id :: width :: sign :: rest → inst.wc = 4 →
      s.state.toNat ≤ ModuleState.type.toNat →
      (sign = 0 ∨ sign = 1) →
      mfind s.futureDecor id = none →
      (256 ≤ width → handleTypeInt inst s = .err (.invalidTypeWidth width))
      ∧ (width < 256 → handleTypeInt inst s = .ok ((),
          { s with
            state := .type, data := rest
            futureDecor := mremove s.futureDecor id
            lookupType := minsert s.lookupType id ⟨s.module.types.length, none⟩
            module := { s.module with types := s.module.types ++
              [{ name := none
                 inner := .scalar (if sign = 0 then .uint else .sint) width }] } })))
    ∧ (∀ (s : St) (inst : Instruction) (id width : Word) (rest : List Word),
      s.data = id :: width :: rest → inst.wc = 3 →
      s.state.toNat ≤ ModuleState.type.toNat →
      mfind s.futureDecor id = none →
      (256 ≤ width → handleTypeFloat inst s = .err (.invalidTypeWidth width))
      ∧ (width < 256 → handleTypeFloat inst s = .ok ((),
          { s with
            state := .type, data := rest
            futureDecor := mremove s.futureDecor id
            lookupType := minsert s.lookupType id ⟨s.module.types.length, none⟩
            module := { s.module with types := s.module.types ++
              [{ name := none, inner := .scalar .float width }] } }))) := by
  constructor
  · intro s inst id width sign rest hdata hwc hstate hsign hdec
    have hns : ¬ ModuleState.type.toNat < s.state.toNat := Nat.not_lt.mpr hstate
    constructor
    · intro h256
      rcases hsign with h | h <;> subst h <;>
        simp [handleTypeInt, switchM, hns, Instruction.expect, hwc, next,
          hdata, widthToU8, Nat.not_lt.mpr h256]
    · intro hlt
      rcases hsign with h | h <;> subst h <;>
        simp [handleTypeInt, switchM, hns, Instruction.expect, hwc, next,
          hdata, widthToU8, hlt, takeFutureDecorName, hdec, appendTypeM,
          appendT, insertLookupTypeM]
  · intro s inst id width rest hdata hwc hstate hdec
    have hns : ¬ ModuleState.type.toNat < s.state.toNat := Nat.not_lt.mpr hstate
    constructor
    · intro h256
      simp [handleTypeFloat, switchM, hns, Instruction.expect, hwc, next,
        hdata, widthToU8, Nat.not_lt.mpr h256]
    · intro hlt
      simp [handleTypeFloat, switchM, hns, Instruction.expect, hwc, next,
        hdata, widthToU8, hlt, takeFutureDecorName, hdec, appendTypeM,
        appendT, insertLookupTypeM]

/-- Witness for C10: width 16 (below 32) is accepted for both OpTypeInt
and OpTypeFloat; width 300 is rejected with InvalidTypeWidth(300). -/
theorem C10_type_width_u8_witness :
    (handleTypeInt ⟨.typeInt, 4⟩ (initSt [1, 16, 1])).isOk = true
    ∧ handleTypeInt ⟨.typeInt, 4⟩ (initSt [1, 300, 1]) =
        .err (.invalidTypeWidth 300)
    ∧ (handleTypeFloat ⟨.typeFloat, 3⟩ (initSt [1, 16])).isOk = true
    ∧ handleTypeFloat ⟨.typeFloat, 3⟩ (initSt [1, 300]) =
        .err (.invalidTypeWidth 300) := by
  refine ⟨?_, ?_, ?_, ?_⟩
  · rw [(C10_type_width_u8.1 (initSt [1, 16, 1]) ⟨.typeInt, 4⟩ 1 16 1 []
      rfl rfl (by decide) (Or.inr rfl) rfl).2 (by decide)]
    rfl
  · exact (C10_type_width_u8.1 (initSt [1, 300, 1]) ⟨.typeInt, 4⟩ 1 300 1 []
      rfl rfl (by decide) (Or.inr rfl) rfl).1 (by decide)
  · rw [(C10_type_width_u8.2 (initSt [1, 16]) ⟨.typeFloat, 3⟩ 1 16 []
      rfl rfl (by decide) rfl).2 (by decide)]
    rfl
  · exact (C10_type_width_u8.2 (initSt [1, 300]) ⟨.typeFloat, 3⟩ 1 300 []
      rfl rfl (by decide) rfl).1 (by decide)

/-! ## C3 — variable bindings -/

theorem checkMemberBindings_ok (id : Word) (ms : List StructMember)
    (h : ∀ m ∈ ms, m.binding.isSome) :
    checkMemberBindings id ms = .ok () := by
  induction ms with
  | nil => rfl
  | cons m rest ih =>
      have hm : m.binding.isSome := h m (by simp)
      have hr := ih (fun x hx => h x (by simp [hx]))
      simp [checkMemberBindings, Option.isNone_iff_eq_none, hr]
      intro hnone
      rw [hnone] at hm
      simp at hm

theorem checkMemberBindings_err (id : Word) (ms : List StructMember)
    (h : ∃ m ∈ ms, m.binding = none) :
    checkMemberBindings id ms = .err (.invalidBinding id) := by
  induction ms with
  | nil => simp at h
  | cons m rest ih =>
      by_cases hm : m.binding = none
      · simp [checkMemberBindings, hm]
      · rcases h with ⟨x, hx, hxb⟩
        rcases List.mem_cons.mp hx with h1 | h1
        · subst h1; exact absurd hxb hm
        · simp [checkMemberBindings, Option.isNone_iff_eq_none, hm,
            ih ⟨x, h1, hxb⟩]

theorem variableBinding_io_all_bound (types : List Ty) (tok : Nat)
    (dec : Decoration) (id : Word) (ty : Ty) (base cls : Nat) (bty : Ty)
    (members : List StructMember)
    (hty : storIdx types tok = .ok ty)
    (hptr : ty.inner = .pointer base cls)
    (hio : cls = SC_Input ∨ cls = SC_Output)
    (hbase : storIdx types base = .ok bty)
    (hstruct : bty.inner = .struct members)
    (hall : ∀ m ∈ members, m.binding.isSome) :
    variableBinding types tok dec id = .ok none := by
  simp [variableBinding, hty, hptr, hio, ioPointerBinding, hbase, hstruct,
    checkMemberBindings_ok id members hall]

theorem variableBinding_io_member_missing (types : List Ty) (tok : Nat)
    (dec : Decoration) (id : Word) (ty : Ty) (base cls : Nat) (bty : Ty)
    (members : List StructMember)
    (hty : storIdx types tok = .ok ty)
    (hptr : ty.inner = .pointer base cls)
    (hio : cls = SC_Input ∨ cls = SC_Output)
    (hbase : storIdx types base = .ok bty)
    (hstruct : bty.inner = .struct members)
    (hmiss : ∃ m ∈ members, m.binding = none) :
    variableBinding types tok dec id = .err (.invalidBinding id) := by
  simp [variableBinding, hty, hptr, hio, ioPointerBinding, hbase, hstruct,
    checkMemberBindings_err id members hmiss]

/-- C3 counterexample: an OpVariable of pointer-to-struct type with
storage class Input whose single struct member carries a binding, but
with NO pending decoration entry for the variable id (id 6).  The claim
says this decodes successfully with binding = None; the code fails with
InvalidBinding(6) because future_decor.remove(&id).ok_or(InvalidBinding)
runs before the type is inspected. -/
def c3St : St :=
  { initSt [5, 6, 1] with
    state := .type
    lookupType := [(5, ⟨2, some 4⟩)]
    module := { Module.fromHeader { version := (1, 0, 0), generator := 0 } with
      types :=
        [{ name := none, inner := .scalar .float 32 },
         { name := none
           inner := .struct [{ name := none, binding := some (.location 0), ty := 0 }] },
         { name := none, inner := .pointer 1 1 }] } }

/-- C3 counterexample theorem: the claim fails on c3St. -/
theorem C3_counterexample_missing_decor_entry :
    handleVariable ⟨.variable, 4⟩ c3St = .err (.invalidBinding 6) := by
  decide

/-- C3 amended: every OpVariable requires a pending decoration ENTRY for
its id (a missing entry fails with InvalidBinding(id) no matter the
type).  Given an entry: a pointer-to-struct variable with Input/Output
storage class needs no binding from that entry — binding is None
provided every struct member carries a binding, and InvalidBinding(id)
results if some member lacks one; every other variable type — a
non-pointer, a pointer of a non-I/O storage class, or an Input/Output
pointer whose pointee is not a struct — requires the entry to yield a
valid binding, else InvalidBinding(id). -/
theorem C3_variable_binding_rules :
    (∀ (s : St) (inst : Instruction) (typeId id storage : Word)
      (rest : List Word) (lt : LookupType),
      s.data = typeId :: id :: storage :: rest → inst.wc = 4 →
      s.state.toNat ≤ ModuleState.type.toNat →
      mfind s.lookupType typeId = some lt →
      mfind s.futureDecor id = none →
      handleVariable inst s = .err (.invalidBinding id))
    ∧ (∀ (s : St) (inst : Instruction) (typeId id storage : Word)
        (rest : List Word) (lt : LookupType) (d : Decoration) (ty : Ty)
        (base cls : Nat) (bty : Ty) (members : List StructMember),
      s.data = typeId :: id :: storage :: rest → inst.wc = 4 →
      s.state.toNat ≤ ModuleState.type.toNat →
      mfind s.lookupType typeId = some lt →
      mfind s.futureDecor id = some d →
      storIdx s.module.types lt.token = .ok ty →
      ty.inner = .pointer base cls →
      (cls = SC_Input ∨ cls = SC_Output) →
      storIdx s.module.types base = .ok bty →
      bty.inner = .struct members →
      storage ≤ LAST_KNOWN_STORAGE_CLASS →
      ((∀ m ∈ members, m.binding.isSome) →
        handleVariable inst s = .ok ((),
          { s with
            state := .type, data := rest
            futureDecor := mremove s.futureDecor id
            lookupVariable := minsert s.lookupVariable id
              ⟨s.module.globalVariables.length, typeId⟩
            module := { s.module with globalVariables :=
              s.module.globalVariables ++
                [{ name := d.name, cls := storage, binding := none
                   ty := lt.token }] } }))
      ∧ ((∃ m ∈ members, m.binding = none) →
          handleVariable inst s = .err (.invalidBinding id)))
    ∧ (∀ (types : List Ty) (tok : Nat) (dec : Decoration) (id : Word) (ty : Ty),
      storIdx types tok = .ok ty →
      (∀ base cls, ty.inner ≠ .pointer base cls) →
      variableBinding types tok dec id =
        match dec.getBinding with
        | some b => .ok (some b)
        | none => .err (.invalidBinding id))
    ∧ (∀ (types : List Ty) (tok : Nat) (dec : Decoration) (id : Word) (ty : Ty)
        (base cls : Nat),
      storIdx types tok = .ok ty →
      ty.inner = .pointer base cls → cls ≠ SC_Input → cls ≠ SC_Output →
      variableBinding types tok dec id =
        match dec.getBinding with
        | some b => .ok (some b)
        | none => .err (.invalidBinding id))
    ∧ (∀ (types : List Ty) (tok : Nat) (dec : Decoration) (id : Word) (ty : Ty)
        (base cls : Nat) (bty : Ty),
      storIdx types tok = .ok ty →
      ty.inner = .pointer base cls →
      (cls = SC_Input ∨ cls = SC_Output) →
      storIdx types base = .ok bty →
      (∀ members, bty.inner ≠ .struct members) →
      variableBinding types tok dec id =
        match dec.getBinding with
        | some b => .ok (some b)
        | none => .err (.invalidBinding id)) := by
  refine ⟨?_, ?_, ?_, ?_, ?_⟩
  · intro s inst typeId id storage rest lt hdata hwc hstate hlt hdec
    have hns : ¬ ModuleState.type.toNat < s.state.toNat := Nat.not_lt.mpr hstate
    simp [handleVariable, switchM, hns, Instruction.expectAtLeast, hwc, next,
      hdata, lookupTypeM, mlookup, hlt, hdec]
  · intro s inst typeId id storage rest lt d ty base cls bty members
      hdata hwc hstate hlt hdec hty hptr hio hbase hstruct hstorage
    have hns : ¬ ModuleState.type.toNat < s.state.toNat := Nat.not_lt.mpr hstate
    constructor
    · intro hall
      have hvb := variableBinding_io_all_bound s.module.types lt.token d id
        ty base cls bty members hty hptr hio hbase hstruct hall
      simp [handleVariable, switchM, hns, Instruction.expectAtLeast, hwc, next,
        hdata, lookupTypeM, mlookup, hlt, hdec, hvb, mapStorageClass,
        Nat.not_lt.mpr hstorage, appendGlobalVariableM, appendT]
    · intro hmiss
      have hvb := variableBinding_io_member_missing s.module.types lt.token d id
        ty base cls bty members hty hptr hio hbase hstruct hmiss
      simp [handleVariable, switchM, hns, Instruction.expectAtLeast, hwc, next,
        hdata, lookupTypeM, mlookup, hlt, hdec, hvb]
  · intro types tok dec id ty hty hnp
    simp [variableBinding, hty]
    cases h : ty.inner with
    | pointer base cls => exact absurd h (hnp base cls)
    | _ => simp [nonIOBinding]
  · intro types tok dec id ty base cls hty hptr hne1 hne3
    simp [variableBinding, hty, hptr, hne1, hne3, nonIOBinding]
  · intro types tok dec id ty base cls bty hty hptr hio hbase hns
    simp [variableBinding, hty, hptr, hio, ioPointerBinding, hbase]
    cases h : bty.inner with
    | struct members => exact absurd h (hns members)
    | _ => simp [nonIOBinding]

/-- A state like c3St but with the decoration entry present for id 6. -/
def c3StOk : St :=
  { c3St with futureDecor := [(6, { name := some "v" })] }

/-- A state like c3StOk whose struct member has no binding. -/
def c3StBad : St :=
  { c3StOk with
    module := { c3StOk.module with
      types :=
        [{ name := none, inner := .scalar .float 32 },
         { name := none
           inner := .struct [{ name := none, binding := none, ty := 0 }] },
         { name := none, inner := .pointer 1 1 }] } }

/-- Witness for C3: each conjunct of the amended claim at a concrete
input. -/
theorem C3_variable_binding_rules_witness :
    handleVariable ⟨.variable, 4⟩ c3St = .err (.invalidBinding 6)
    ∧ (handleVariable ⟨.variable, 4⟩ c3StOk).isOk = true
    ∧ handleVariable ⟨.variable, 4⟩ c3StBad = .err (.invalidBinding 6)
    ∧ variableBinding [{ name := none, inner := .scalar .float 32 }] 0 {} 9 =
        .err (.invalidBinding 9)
    ∧ variableBinding [{ name := none, inner := .scalar .float 32 }] 0
        { location := some 2 } 9 = .ok (some (.location 2))
    ∧ variableBinding [{ name := none, inner := .pointer 0 2 }] 0
        { location := some 2 } 9 = .ok (some (.location 2))
    ∧ variableBinding
        [{ name := none, inner := .scalar .float 32 },
         { name := none, inner := .pointer 0 1 }] 1
        { location := some 2 } 9 = .ok (some (.location 2))
    ∧ variableBinding
        [{ name := none, inner := .scalar .float 32 },
         { name := none, inner := .pointer 0 1 }] 1 {} 9 =
        .err (.invalidBinding 9) := by
  refine ⟨?_, ?_, ?_, ?_, ?_, ?_, ?_, ?_⟩
  · exact C3_variable_binding_rules.1 c3St ⟨.variable, 4⟩ 5 6 1 [] ⟨2, some 4⟩
      rfl rfl (by decide) rfl rfl
  · rw [((C3_variable_binding_rules.2.1 c3StOk ⟨.variable, 4⟩ 5 6 1 []
      ⟨2, some 4⟩ { name := some "v" } { name := none, inner := .pointer 1 1 }
      1 1 { name := none
            inner := .struct [{ name := none, binding := some (.location 0), ty := 0 }] }
      [{ name := none, binding := some (.location 0), ty := 0 }]
      rfl rfl (by decide) rfl rfl rfl rfl (Or.inl rfl) rfl rfl
      (by decide)).1 (by decide))]
    rfl
  · exact (C3_variable_binding_rules.2.1 c3StBad ⟨.variable, 4⟩ 5 6 1 []
      ⟨2, some 4⟩ { name := some "v" } { name := none, inner := .pointer 1 1 }
      1 1 { name := none
            inner := .struct [{ name := none, binding := none, ty := 0 }] }
      [{ name := none, binding := none, ty := 0 }]
      rfl rfl (by decide) rfl rfl rfl rfl (Or.inl rfl) rfl rfl
      (by decide)).2 ⟨{ name := none, binding := none, ty := 0 }, by simp, rfl⟩
  · rw [C3_variable_binding_rules.2.2.1
      [{ name := none, inner := .scalar .float 32 }] 0 {} 9
      { name := none, inner := .scalar .float 32 } rfl (by intro a b h; cases h)]
    rfl
  · rw [C3_variable_binding_rules.2.2.1
      [{ name := none, inner := .scalar .float 32 }] 0 { location := some 2 } 9
      { name := none, inner := .scalar .float 32 } rfl (by intro a b h; cases h)]
    rfl
  · rw [C3_variable_binding_rules.2.2.2.1
      [{ name := none, inner := .pointer 0 2 }] 0 { location := some 2 } 9
      { name := none, inner := .pointer 0 2 } 0 2 rfl rfl (by decide) (by decide)]
    rfl
  · rw [C3_variable_binding_rules.2.2.2.2
      [{ name := none, inner := .scalar .float 32 },
       { name := none, inner := .pointer 0 1 }] 1 { location := some 2 } 9
      { name := none, inner := .pointer 0 1 } 0 1
      { name := none, inner := .scalar .float 32 }
      rfl rfl (Or.inl rfl) rfl (by intro ms h; cases h)]
    rfl
  · rw [C3_variable_binding_rules.2.2.2.2
      [{ name := none, inner := .scalar .float 32 },
       { name := none, inner := .pointer 0 1 }] 1 {} 9
      { name := none, inner := .pointer 0 1 } 0 1
      { name := none, inner := .scalar .float 32 }
      rfl rfl (Or.inl rfl) rfl (by intro ms h; cases h)]
    rfl

/-! ## C6 — Load/Store type coherence -/

/-- C6 counterexample state: an OpStore whose pointer operand (id 10) is
an expression of a SCALAR type (type id 100, token 0, base_id None) and
whose value operand (id 11) has type id 200.  base_id None differs from
Some 200, yet the decode fails with UnsupportedType(0) — the Pointer
shape check runs first — not with InvalidStoreType(200) as the claim
requires. -/
def c6St : St :=
  { initSt [10, 11] with
    state := .function
    lookupExpression := [(10, ⟨0, 100⟩), (11, ⟨1, 200⟩)]
    lookupType := [(100, ⟨0, none⟩), (200, ⟨1, none⟩)] }

/-- The type store for the C6 counterexample: token 0 is a float scalar,
token 1 a float 4-vector. -/
def c6TypeStore : List Ty :=
  [{ name := none, inner := .scalar .float 32 },
   { name := none, inner := .vector .quad .float 32 }]

/-- An empty function value used while decoding blocks. -/
def emptyFun : Function :=
  { name := none, control := 0, parameterTypes := [], returnType := none
    expressions := [], body := [] }

/-- C6 counterexample theorem: with a non-Pointer pointer-operand type
and mismatched base-id, OpStore fails with UnsupportedType, not with
InvalidStoreType(value-type-id); so the claim's store clause is false as
stated. -/
theorem C6_counterexample_store_nonpointer :
    handleStore ⟨.store, 3⟩ c6TypeStore emptyFun c6St =
      .err (.unsupportedType 0)
    ∧ Error.unsupportedType 0 ≠ Error.invalidStoreType 200 := by
  refine ⟨by decide, by decide⟩

/-- C6 amended: for OpLoad, a looked-up pointer type whose base-id is
not the result-type id fails InvalidLoadType(result-type-id) — this
check runs before the Pointer shape check; for OpStore the Pointer
shape check runs first (a non-Pointer type fails UnsupportedType), and
then a base-id different from the value expression's type id fails
InvalidStoreType(value-type-id); when the ids agree and the type is a
Pointer, a Load expression respectively a Store statement is emitted. -/
theorem C6_load_store_type_checks :
    (∀ (s : St) (inst : Instruction) (tS : List Ty) (f : Function)
      (r rid p : Word) (rest : List Word) (be : LookupExpression)
      (bt : LookupType),
      s.data = r :: rid :: p :: rest → inst.wc = 4 →
      mfind s.lookupExpression p = some be →
      mfind s.lookupType be.typeId = some bt →
      bt.baseId ≠ some r →
      handleLoad inst tS f s = .err (.invalidLoadType r))
    ∧ (∀ (s : St) (inst : Instruction) (tS : List Ty) (f : Function)
        (r rid p : Word) (rest : List Word) (be : LookupExpression)
        (bt : LookupType) (ty : Ty) (pb pc : Nat),
      s.data = r :: rid :: p :: rest → inst.wc = 4 →
      mfind s.lookupExpression p = some be →
      mfind s.lookupType be.typeId = some bt →
      bt.baseId = some r →
      storIdx tS bt.token = .ok ty →
      ty.inner = .pointer pb pc →
      handleLoad inst tS f s = .ok
        ({ f with expressions := f.expressions ++ [.load be.token] },
         { s with
           data := rest
           lookupExpression := minsert s.lookupExpression rid
             ⟨f.expressions.length, r⟩ }))
    ∧ (∀ (s : St) (inst : Instruction) (tS : List Ty) (f : Function)
        (p v : Word) (rest : List Word) (be : LookupExpression)
        (bt : LookupType) (ty : Ty),
      s.data = p :: v :: rest → inst.wc = 3 →
      mfind s.lookupExpression p = some be →
      mfind s.lookupType be.typeId = some bt →
      storIdx tS bt.token = .ok ty →
      (∀ pb pc, ty.inner ≠ .pointer pb pc) →
      handleStore inst tS f s = .err (.unsupportedType bt.token))
    ∧ (∀ (s : St) (inst : Instruction) (tS : List Ty) (f : Function)
        (p v : Word) (rest : List Word) (be ve : LookupExpression)
        (bt : LookupType) (ty : Ty) (pb pc : Nat),
      s.data = p :: v :: rest → inst.wc = 3 →
      mfind s.lookupExpression p = some be →
      mfind s.lookupType be.typeId = some bt →
      storIdx tS bt.token = .ok ty →
      ty.inner = .pointer pb pc →
      mfind s.lookupExpression v = some ve →
      ((bt.baseId ≠ some ve.typeId →
        handleStore inst tS f s = .err (.invalidStoreType ve.typeId))
      ∧ (bt.baseId = some ve.typeId →
        handleStore inst tS f s = .ok
          ({ f with body := f.body ++ [.store be.token ve.token] },
           { s with data := rest })))) := by
  refine ⟨?_, ?_, ?_, ?_⟩
  · intro s inst tS f r rid p rest be bt hdata hwc hbe hbt hne
    simp [handleLoad, Instruction.expectAtLeast, hwc, next, hdata,
      lookupExprM, lookupTypeM, mlookup, hbe, hbt, hne]
  · intro s inst tS f r rid p rest be bt ty pb pc hdata hwc hbe hbt heq hty hptr
    simp [handleLoad, Instruction.expectAtLeast, hwc, next, hdata,
      lookupExprM, lookupTypeM, mlookup, hbe, hbt, heq, hty, hptr,
      insertExprM, appendT]
  · intro s inst tS f p v rest be bt ty hdata hwc hbe hbt hty hnp
    simp [handleStore, Instruction.expectAtLeast, hwc, next, hdata,
      lookupExprM, lookupTypeM, mlookup, hbe, hbt, hty]
  · intro s inst tS f p v rest be ve bt ty pb pc hdata hwc hbe hbt hty hptr hve
    constructor
    · intro hne
      simp [handleStore, Instruction.expectAtLeast, hwc, next, hdata,
        lookupExprM, lookupTypeM, mlookup, hbe, hbt, hty, hptr, hve, hne]
    · intro heq
      simp [handleStore, Instruction.expectAtLeast, hwc, next, hdata,
        lookupExprM, lookupTypeM, mlookup, hbe, hbt, hty, hptr, hve, heq]

/-- A C6 success-side state: pointer expression 10 of pointer type
(token 2, base_id 200), value expression 11 of type 200. -/
def c6StOk : St :=
  { initSt [10, 11] with
    state := .function
    lookupExpression := [(10, ⟨0, 100⟩), (11, ⟨1, 200⟩)]
    lookupType := [(100, ⟨2, some 200⟩), (200, ⟨1, none⟩)] }

/-- The type store for the success side: token 2 is a pointer type. -/
def c6TypeStoreOk : List Ty :=
  [{ name := none, inner := .scalar .float 32 },
   { name := none, inner := .vector .quad .float 32 },
   { name := none, inner := .pointer 0 2 }]

/-- Witness for C6: every conjunct at concrete inputs — load mismatch,
load success, store on a non-pointer, store mismatch, store success. -/
theorem C6_load_store_type_checks_witness :
    handleLoad ⟨.load, 4⟩ c6TypeStore emptyFun
      { c6St with data := [300, 12, 10] } = .err (.invalidLoadType 300)
    ∧ handleLoad ⟨.load, 4⟩ c6TypeStoreOk emptyFun
      { c6StOk with data := [200, 12, 10] } = .ok
        ({ emptyFun with expressions := [.load 0] },
         { c6StOk with
           data := []
           lookupExpression := minsert c6StOk.lookupExpression 12 ⟨0, 200⟩ })
    ∧ handleStore ⟨.store, 3⟩ c6TypeStore emptyFun c6St =
        .err (.unsupportedType 0)
    ∧ handleStore ⟨.store, 3⟩ c6TypeStoreOk emptyFun
      { c6StOk with lookupType := [(100, ⟨2, some 999⟩), (200, ⟨1, none⟩)] } =
        .err (.invalidStoreType 200)
    ∧ handleStore ⟨.store, 3⟩ c6TypeStoreOk emptyFun c6StOk = .ok
        ({ emptyFun with body := [.store 0 1] },
         { c6StOk with data := [] }) := by
  refine ⟨?_, ?_, ?_, ?_, ?_⟩
  · exact C6_load_store_type_checks.1 _ _ _ _ 300 12 10 [] ⟨0, 100⟩ ⟨0, none⟩
      rfl rfl rfl rfl (by decide)
  · exact C6_load_store_type_checks.2.1 _ _ _ _ 200 12 10 [] ⟨0, 100⟩
      ⟨2, some 200⟩ { name := none, inner := .pointer 0 2 } 0 2
      rfl rfl rfl rfl rfl rfl rfl
  · exact C6_load_store_type_checks.2.2.1 _ _ _ _ 10 11 [] ⟨0, 100⟩
      ⟨0, none⟩ { name := none, inner := .scalar .float 32 }
      rfl rfl rfl rfl rfl (by intro a b h; cases h)
  · exact (C6_load_store_type_checks.2.2.2
      { c6StOk with lookupType := [(100, ⟨2, some 999⟩), (200, ⟨1, none⟩)] }
      ⟨.store, 3⟩ c6TypeStoreOk emptyFun 10 11 [] ⟨0, 100⟩ ⟨1, 200⟩
      ⟨2, some 999⟩ { name := none, inner := .pointer 0 2 } 0 2
      rfl rfl rfl rfl rfl rfl rfl).1 (by decide)
  · exact (C6_load_store_type_checks.2.2.2 c6StOk
      ⟨.store, 3⟩ c6TypeStoreOk emptyFun 10 11 [] ⟨0, 100⟩ ⟨1, 200⟩
      ⟨2, some 200⟩ { name := none, inner := .pointer 0 2 } 0 2
      rfl rfl rfl rfl rfl rfl rfl).2 rfl

/-! ## C8 — entry-point input/output partition -/

/-- Written from the spec's words (sections 4.5 and 8): the global
variable handles of the referenced ids whose storage class is Input,
in the order the ids appeared in the EntryPoint instruction's stream. -/
def specInputs (lv : List (Word × LookupVariable)) (gv : List GlobalVariable)
    (ids : List Word) : List Nat :=
  ids.filterMap (fun id =>
    match mfind lv id with
    | some l =>
        match gv[l.token]? with
        | some g => if g.cls = SC_Input then some l.token else none
        | none => none
    | none => none)

/-- Spec reading, Output side. -/
def specOutputs (lv : List (Word × LookupVariable)) (gv : List GlobalVariable)
    (ids : List Word) : List Nat :=
  ids.filterMap (fun id =>
    match mfind lv id with
    | some l =>
        match gv[l.token]? with
        | some g => if g.cls = SC_Output then some l.token else none
        | none => none
    | none => none)

/-- C8: on success the resolver's inputs are exactly the Input-class
variable handles of the referenced ids in stream order, likewise the
outputs (first conjunct, a refinement of resolveVars against the
spec-side filter); an unresolvable variable id fails InvalidId(id), a
resolvable variable of a class other than Input/Output fails
InvalidVariableClass(class), and an unresolvable function id fails
InvalidId(function-id); a resolved entry point is appended with exactly
the partition the resolver computed. -/
theorem C8_entry_point_partition :
    (∀ (lv : List (Word × LookupVariable)) (gv : List GlobalVariable)
      (ids : List Word) (acc res : List Nat × List Nat),
      resolveVars lv gv ids acc = .ok res →
      res.1 = acc.1 ++ specInputs lv gv ids
        ∧ res.2 = acc.2 ++ specOutputs lv gv ids)
    ∧ (∀ (lv : List (Word × LookupVariable)) (gv : List GlobalVariable)
        (id : Word) (rest : List Word) (acc : List Nat × List Nat),
      mfind lv id = none →
      resolveVars lv gv (id :: rest) acc = .err (.invalidId id))
    ∧ (∀ (lv : List (Word × LookupVariable)) (gv : List GlobalVariable)
        (id : Word) (rest : List Word) (acc : List Nat × List Nat)
        (l : LookupVariable) (g : GlobalVariable),
      mfind lv id = some l → gv[l.token]? = some g →
      g.cls ≠ SC_Input → g.cls ≠ SC_Output →
      resolveVars lv gv (id :: rest) acc = .err (.invalidVariableClass g.cls))
    ∧ (∀ (s : St) (raw : RawEntryPoint) (rest : List RawEntryPoint),
      mfind s.lookupFunction raw.functionId = none →
      resolveLoop (raw :: rest) s = .err (.invalidId raw.functionId))
    ∧ (∀ (s : St) (raw : RawEntryPoint) (rest : List RawEntryPoint)
        (ftok : Nat) (io : List Nat × List Nat),
      mfind s.lookupFunction raw.functionId = some ftok →
      resolveVars s.lookupVariable s.module.globalVariables
        raw.variableIds ([], []) = .ok io →
      resolveLoop (raw :: rest) s = resolveLoop rest
        { s with module := { s.module with entryPoints :=
            s.module.entryPoints ++
              [⟨raw.execModel, raw.name, ftok, io.1, io.2⟩] } }) := by
  refine ⟨?_, ?_, ?_, ?_, ?_⟩
  · intro lv gv ids
    induction ids with
    | nil =>
        intro acc res h
        simp [resolveVars] at h
        simp [← h, specInputs, specOutputs]
    | cons id rest ih =>
        intro acc res h
        rcases hl : mfind lv id with _ | l
        · rw [resolveVars] at h
          simp [mlookup, hl] at h
        · rcases hg : gv[l.token]? with _ | g
          · rw [resolveVars] at h
            simp [mlookup, hl, storIdx, List.get?_eq_getElem?, hg] at h
          · rw [resolveVars] at h
            simp only [mlookup, hl, storIdx, List.get?_eq_getElem?, hg,
              Res.bind_eq, Res.bind_ok] at h
            by_cases h1 : g.cls = SC_Input
            · simp only [h1, if_pos rfl] at h
              have := ih (acc.1 ++ [l.token], acc.2) res h
              simpa [specInputs, specOutputs, List.filterMap_cons, hl, hg, h1]
                using this
            · by_cases h3 : g.cls = SC_Output
              · simp only [h1, if_false, h3, if_pos rfl, ite_false] at h
                have := ih (acc.1, acc.2 ++ [l.token]) res h
                simpa [specInputs, specOutputs, List.filterMap_cons, hl, hg,
                  h1, h3] using this
              · simp [h1, h3] at h
  · intro lv gv id rest acc hl
    rw [resolveVars]
    simp [mlookup, hl]
  · intro lv gv id rest acc l g hl hg h1 h3
    rw [resolveVars]
    simp [mlookup, hl, storIdx, List.get?_eq_getElem?, hg, h1, h3]
  · intro s raw rest hf
    simp [resolveLoop, mlookup, hf]
  · intro s raw rest ftok io hf hio
    simp [resolveLoop, mlookup, hf, hio]

/-- A concrete lookup table and global store for the C8 witness:
ids 10 and 11 resolve to an Input and an Output variable, id 12 to a
Uniform (class 2) variable. -/
def c8Lv : List (Word × LookupVariable) :=
  [(10, ⟨0, 10⟩), (11, ⟨1, 11⟩), (12, ⟨2, 12⟩)]

def c8Gv : List GlobalVariable :=
  [{ name := none, cls := 1, binding := some (.location 0), ty := 0 },
   { name := none, cls := 3, binding := some (.location 1), ty := 0 },
   { name := none, cls := 2, binding := some (.descriptor 0 0), ty := 0 }]

/-- Witness for C8 at concrete inputs: the ordered partition, the
InvalidId failure, the InvalidVariableClass failure, and the function-id
InvalidId failure. -/
theorem C8_entry_point_partition_witness :
    ([0, 0] = [] ++ specInputs c8Lv c8Gv [10, 10, 11]
      ∧ [1] = [] ++ specOutputs c8Lv c8Gv [10, 10, 11])
    ∧ resolveVars c8Lv c8Gv [99] ([0], []) = .err (.invalidId 99)
    ∧ resolveVars c8Lv c8Gv [12] ([], []) = .err (.invalidVariableClass 2)
    ∧ resolveLoop [⟨0, "m", 7, []⟩] (initSt []) = .err (.invalidId 7) := by
  refine ⟨?_, ?_, ?_, ?_⟩
  · exact C8_entry_point_partition.1 c8Lv c8Gv [10, 10, 11] ([], [])
      ([0, 0], [1]) (by decide)
  · exact C8_entry_point_partition.2.1 c8Lv c8Gv 99 [] ([0], []) rfl
  · exact C8_entry_point_partition.2.2.1 c8Lv c8Gv 12 [] ([], []) ⟨2, 12⟩
      { name := none, cls := 2, binding := some (.descriptor 0 0), ty := 0 }
      rfl rfl (by decide) (by decide)
  · exact C8_entry_point_partition.2.2.2.1 (initSt []) ⟨0, "m", 7, []⟩ [] rfl

end NagaSpirv
